import Mathlib

/-
  Verification of rustfmt's diagnostic session and configuration model.

  The definitions below are shallow embeddings of the code in
  src/src/syntux/session.rs and src/src/config.rs.  Collaborator types that
  the repository pulls in from outside those files (the span-to-file-name
  resolution of the source map, the ignore-path matcher, the ListTactic and
  SeparatorTactic enums of lists.rs, the TOML parser and the import
  normalizer) are modelled from the specification, and each such definition
  says so in its doc comment.
-/

namespace Rustfmt

/-- A source span.  The session code only ever passes a span to
`SourceMap::span_to_filename`, so the embedding keeps spans abstract as
naturals and carries the resolution function explicitly. -/
abbrev Span := Nat

/-- The outcome of `SourceMap::span_to_filename`: `syntax_pos::FileName::Real`
carries an on-disk path; every other variant (macro expansion, synthetic
sources, ...) is collapsed into `Other`, which is exactly how
`SilentOnIgnoredFilesEmitter::emit_diagnostic` treats them (its `_ => ()`
arm). -/
inductive FileName where
  | Real (path : String)
  | Other
deriving DecidableEq

/-- A parser diagnostic as the emitter observes it: its primary span, if any
(`db.span.primary_span()`), plus an opaque message used only to tell
diagnostics apart. -/
structure Diagnostic where
  primary_span : Option Span
  message : String
deriving DecidableEq

/-- State of `SilentOnIgnoredFilesEmitter` (session.rs lines 31-37).
`ignore_path_set` is the `IgnorePathSet::is_match` predicate (the matcher
itself lives outside src/, so it is modelled from the spec as a Boolean
predicate over real file paths); `source_map` is `span_to_filename`;
`can_reset` is the shared `Rc<RefCell<bool>>` cell; `emitted` is the output
sink of the wrapped `EmitterWriter`. -/
structure SilentOnIgnoredFilesEmitter where
  ignore_path_set : String → Bool
  source_map : Span → FileName
  has_non_ignorable_parser_errors : Bool
  can_reset : Bool
  emitted : List Diagnostic

/-- Translation of `SilentOnIgnoredFilesEmitter::emit_diagnostic`
(session.rs lines 40-62).  `fallthrough` is the code after the `match`:
set `has_non_ignorable_parser_errors`, clear the shared `can_reset` cell and
forward the diagnostic to the wrapped emitter.  The early `return` inside
the `Real`/ignored branch is the `suppress` value. -/
def SilentOnIgnoredFilesEmitter.emit_diagnostic (self : SilentOnIgnoredFilesEmitter)
    (db : Diagnostic) : SilentOnIgnoredFilesEmitter :=
  let fallthrough : SilentOnIgnoredFilesEmitter :=
    { self with
        has_non_ignorable_parser_errors := true
        can_reset := false
        emitted := self.emitted ++ [db] }
  match db.primary_span with
  | some primary_span =>
    match self.source_map primary_span with
    | FileName.Real path =>
      if self.ignore_path_set path then
        if !self.has_non_ignorable_parser_errors then
          { self with can_reset := true }
        else
          self
      else fallthrough
    | FileName.Other => fallthrough
  | none => fallthrough

/-- Replaying a list of diagnostics through the emitter, in order. -/
def SilentOnIgnoredFilesEmitter.emitAll (self : SilentOnIgnoredFilesEmitter)
    (ds : List Diagnostic) : SilentOnIgnoredFilesEmitter :=
  ds.foldl SilentOnIgnoredFilesEmitter.emit_diagnostic self

/-- The classification `emit_diagnostic` applies to a diagnostic: it is
suppressed (ignorable) exactly when it has a primary span that resolves to a
real file matched by the ignore set. -/
def isIgnorableDiagnostic (ign : String → Bool) (sm : Span → FileName)
    (db : Diagnostic) : Bool :=
  match db.primary_span with
  | some s =>
    match sm s with
    | FileName.Real path => ign path
    | FileName.Other => false
  | none => false

/-- The error-emission policy chosen at `ParseSess::new` (session.rs
lines 65-70). -/
inductive ErrorEmission where
  | Silence
  | Default

/-- `ParseSess::new` with `ErrorEmission::Default` (session.rs lines 109-130):
`default_handler` wraps a fresh `SilentOnIgnoredFilesEmitter` with
`has_non_ignorable_parser_errors = false`, and the shared `can_reset_errors`
cell starts as `RefCell::new(false)`; nothing has been emitted yet. -/
def ParseSess.newDefault (ign : String → Bool) (sm : Span → FileName) :
    SilentOnIgnoredFilesEmitter :=
  { ignore_path_set := ign
    source_map := sm
    has_non_ignorable_parser_errors := false
    can_reset := false
    emitted := [] }

/-- `ParseSess::can_reset_errors` (session.rs lines 132-134): it reads the
shared `Rc<RefCell<bool>>` cell, which is the emitter's `can_reset` field. -/
def ParseSess.can_reset_errors (sess : SilentOnIgnoredFilesEmitter) : Bool :=
  sess.can_reset

/-- `ParseSess::ignore_file` (session.rs lines 136-138): a pure query of the
ignore-path matcher. -/
def ParseSess.ignore_file (sess : SilentOnIgnoredFilesEmitter) (path : String) : Bool :=
  sess.ignore_path_set path

/-- `SilentEmitter::emit_diagnostic` (session.rs lines 19-24), selected by
`ParseSess::new` for `ErrorEmission::Silence` via `silent_handler`.  The
struct has no fields and the method body is empty, so the observable output
sink is left exactly as it was. -/
def SilentEmitter.emit_diagnostic (sink : List Diagnostic) (_db : Diagnostic) :
    List Diagnostic :=
  sink

/-- `configuration_option_enum! { NewlineStyle: ... }` (config.rs). -/
inductive NewlineStyle where
  | Windows
  | Unix
  | Native
deriving DecidableEq

def NewlineStyle.variants : List String := ["Windows", "Unix", "Native"]

/-- Modelled from the spec: decoding of a `NewlineStyle` value by exact, case-sensitive variant name (the `impl_enum_decodable!` macro invoked by `configuration_option_enum!` lives outside src/; the `ConfigType` trait doc in config.rs and section 4.1 of the spec fix the behaviour). -/
def NewlineStyle.parse (s : String) : Option NewlineStyle :=
  match s with
  | "Windows" => some NewlineStyle.Windows
  | "Unix" => some NewlineStyle.Unix
  | "Native" => some NewlineStyle.Native
  | _ => none

/-- The `Debug` rendering of a `NewlineStyle` variant (its name), as printed by `print_docs`. -/
def NewlineStyle.debugStr : NewlineStyle → String
  | NewlineStyle.Windows => "Windows"
  | NewlineStyle.Unix => "Unix"
  | NewlineStyle.Native => "Native"

/-- `configuration_option_enum! { BraceStyle: ... }` (config.rs). -/
inductive BraceStyle where
  | AlwaysNextLine
  | PreferSameLine
  | SameLineWhere
deriving DecidableEq

def BraceStyle.variants : List String := ["AlwaysNextLine", "PreferSameLine", "SameLineWhere"]

/-- Modelled from the spec: decoding of a `BraceStyle` value by exact, case-sensitive variant name (the `impl_enum_decodable!` macro invoked by `configuration_option_enum!` lives outside src/; the `ConfigType` trait doc in config.rs and section 4.1 of the spec fix the behaviour). -/
def BraceStyle.parse (s : String) : Option BraceStyle :=
  match s with
  | "AlwaysNextLine" => some BraceStyle.AlwaysNextLine
  | "PreferSameLine" => some BraceStyle.PreferSameLine
  | "SameLineWhere" => some BraceStyle.SameLineWhere
  | _ => none

/-- The `Debug` rendering of a `BraceStyle` variant (its name), as printed by `print_docs`. -/
def BraceStyle.debugStr : BraceStyle → String
  | BraceStyle.AlwaysNextLine => "AlwaysNextLine"
  | BraceStyle.PreferSameLine => "PreferSameLine"
  | BraceStyle.SameLineWhere => "SameLineWhere"

/-- `configuration_option_enum! { ControlBraceStyle: ... }` (config.rs). -/
inductive ControlBraceStyle where
  | AlwaysSameLine
  | AlwaysNextLine
deriving DecidableEq

def ControlBraceStyle.variants : List String := ["AlwaysSameLine", "AlwaysNextLine"]

/-- Modelled from the spec: decoding of a `ControlBraceStyle` value by exact, case-sensitive variant name (the `impl_enum_decodable!` macro invoked by `configuration_option_enum!` lives outside src/; the `ConfigType` trait doc in config.rs and section 4.1 of the spec fix the behaviour). -/
def ControlBraceStyle.parse (s : String) : Option ControlBraceStyle :=
  match s with
  | "AlwaysSameLine" => some ControlBraceStyle.AlwaysSameLine
  | "AlwaysNextLine" => some ControlBraceStyle.AlwaysNextLine
  | _ => none

/-- The `Debug` rendering of a `ControlBraceStyle` variant (its name), as printed by `print_docs`. -/
def ControlBraceStyle.debugStr : ControlBraceStyle → String
  | ControlBraceStyle.AlwaysSameLine => "AlwaysSameLine"
  | ControlBraceStyle.AlwaysNextLine => "AlwaysNextLine"

/-- `configuration_option_enum! { ElseIfBraceStyle: ... }` (config.rs). -/
inductive ElseIfBraceStyle where
  | AlwaysSameLine
  | ClosingNextLine
  | AlwaysNextLine
deriving DecidableEq

def ElseIfBraceStyle.variants : List String := ["AlwaysSameLine", "ClosingNextLine", "AlwaysNextLine"]

/-- Modelled from the spec: decoding of a `ElseIfBraceStyle` value by exact, case-sensitive variant name (the `impl_enum_decodable!` macro invoked by `configuration_option_enum!` lives outside src/; the `ConfigType` trait doc in config.rs and section 4.1 of the spec fix the behaviour). -/
def ElseIfBraceStyle.parse (s : String) : Option ElseIfBraceStyle :=
  match s with
  | "AlwaysSameLine" => some ElseIfBraceStyle.AlwaysSameLine
  | "ClosingNextLine" => some ElseIfBraceStyle.ClosingNextLine
  | "AlwaysNextLine" => some ElseIfBraceStyle.AlwaysNextLine
  | _ => none

/-- The `Debug` rendering of a `ElseIfBraceStyle` variant (its name), as printed by `print_docs`. -/
def ElseIfBraceStyle.debugStr : ElseIfBraceStyle → String
  | ElseIfBraceStyle.AlwaysSameLine => "AlwaysSameLine"
  | ElseIfBraceStyle.ClosingNextLine => "ClosingNextLine"
  | ElseIfBraceStyle.AlwaysNextLine => "AlwaysNextLine"

/-- `configuration_option_enum! { ReturnIndent: ... }` (config.rs). -/
inductive ReturnIndent where
  | WithArgs
  | WithWhereClause
deriving DecidableEq

def ReturnIndent.variants : List String := ["WithArgs", "WithWhereClause"]

/-- Modelled from the spec: decoding of a `ReturnIndent` value by exact, case-sensitive variant name (the `impl_enum_decodable!` macro invoked by `configuration_option_enum!` lives outside src/; the `ConfigType` trait doc in config.rs and section 4.1 of the spec fix the behaviour). -/
def ReturnIndent.parse (s : String) : Option ReturnIndent :=
  match s with
  | "WithArgs" => some ReturnIndent.WithArgs
  | "WithWhereClause" => some ReturnIndent.WithWhereClause
  | _ => none

/-- The `Debug` rendering of a `ReturnIndent` variant (its name), as printed by `print_docs`. -/
def ReturnIndent.debugStr : ReturnIndent → String
  | ReturnIndent.WithArgs => "WithArgs"
  | ReturnIndent.WithWhereClause => "WithWhereClause"

/-- `configuration_option_enum! { StructLitStyle: ... }` (config.rs). -/
inductive StructLitStyle where
  | Visual
  | Block
deriving DecidableEq

def StructLitStyle.variants : List String := ["Visual", "Block"]

/-- Modelled from the spec: decoding of a `StructLitStyle` value by exact, case-sensitive variant name (the `impl_enum_decodable!` macro invoked by `configuration_option_enum!` lives outside src/; the `ConfigType` trait doc in config.rs and section 4.1 of the spec fix the behaviour). -/
def StructLitStyle.parse (s : String) : Option StructLitStyle :=
  match s with
  | "Visual" => some StructLitStyle.Visual
  | "Block" => some StructLitStyle.Block
  | _ => none

/-- The `Debug` rendering of a `StructLitStyle` variant (its name), as printed by `print_docs`. -/
def StructLitStyle.debugStr : StructLitStyle → String
  | StructLitStyle.Visual => "Visual"
  | StructLitStyle.Block => "Block"

/-- `configuration_option_enum! { FnArgLayoutStyle: ... }` (config.rs). -/
inductive FnArgLayoutStyle where
  | Visual
  | Block
  | BlockAlways
deriving DecidableEq

def FnArgLayoutStyle.variants : List String := ["Visual", "Block", "BlockAlways"]

/-- Modelled from the spec: decoding of a `FnArgLayoutStyle` value by exact, case-sensitive variant name (the `impl_enum_decodable!` macro invoked by `configuration_option_enum!` lives outside src/; the `ConfigType` trait doc in config.rs and section 4.1 of the spec fix the behaviour). -/
def FnArgLayoutStyle.parse (s : String) : Option FnArgLayoutStyle :=
  match s with
  | "Visual" => some FnArgLayoutStyle.Visual
  | "Block" => some FnArgLayoutStyle.Block
  | "BlockAlways" => some FnArgLayoutStyle.BlockAlways
  | _ => none

/-- The `Debug` rendering of a `FnArgLayoutStyle` variant (its name), as printed by `print_docs`. -/
def FnArgLayoutStyle.debugStr : FnArgLayoutStyle → String
  | FnArgLayoutStyle.Visual => "Visual"
  | FnArgLayoutStyle.Block => "Block"
  | FnArgLayoutStyle.BlockAlways => "BlockAlways"

/-- `configuration_option_enum! { BlockIndentStyle: ... }` (config.rs). -/
inductive BlockIndentStyle where
  | Inherit
  | Tabbed
  | Visual
deriving DecidableEq

def BlockIndentStyle.variants : List String := ["Inherit", "Tabbed", "Visual"]

/-- Modelled from the spec: decoding of a `BlockIndentStyle` value by exact, case-sensitive variant name (the `impl_enum_decodable!` macro invoked by `configuration_option_enum!` lives outside src/; the `ConfigType` trait doc in config.rs and section 4.1 of the spec fix the behaviour). -/
def BlockIndentStyle.parse (s : String) : Option BlockIndentStyle :=
  match s with
  | "Inherit" => some BlockIndentStyle.Inherit
  | "Tabbed" => some BlockIndentStyle.Tabbed
  | "Visual" => some BlockIndentStyle.Visual
  | _ => none

/-- The `Debug` rendering of a `BlockIndentStyle` variant (its name), as printed by `print_docs`. -/
def BlockIndentStyle.debugStr : BlockIndentStyle → String
  | BlockIndentStyle.Inherit => "Inherit"
  | BlockIndentStyle.Tabbed => "Tabbed"
  | BlockIndentStyle.Visual => "Visual"

/-- `configuration_option_enum! { Density: ... }` (config.rs). -/
inductive Density where
  | Compressed
  | Tall
  | CompressedIfEmpty
  | Vertical
deriving DecidableEq

def Density.variants : List String := ["Compressed", "Tall", "CompressedIfEmpty", "Vertical"]

/-- Modelled from the spec: decoding of a `Density` value by exact, case-sensitive variant name (the `impl_enum_decodable!` macro invoked by `configuration_option_enum!` lives outside src/; the `ConfigType` trait doc in config.rs and section 4.1 of the spec fix the behaviour). -/
def Density.parse (s : String) : Option Density :=
  match s with
  | "Compressed" => some Density.Compressed
  | "Tall" => some Density.Tall
  | "CompressedIfEmpty" => some Density.CompressedIfEmpty
  | "Vertical" => some Density.Vertical
  | _ => none

/-- The `Debug` rendering of a `Density` variant (its name), as printed by `print_docs`. -/
def Density.debugStr : Density → String
  | Density.Compressed => "Compressed"
  | Density.Tall => "Tall"
  | Density.CompressedIfEmpty => "CompressedIfEmpty"
  | Density.Vertical => "Vertical"

/-- `configuration_option_enum! { TypeDensity: ... }` (config.rs). -/
inductive TypeDensity where
  | Compressed
  | Wide
deriving DecidableEq

def TypeDensity.variants : List String := ["Compressed", "Wide"]

/-- Modelled from the spec: decoding of a `TypeDensity` value by exact, case-sensitive variant name (the `impl_enum_decodable!` macro invoked by `configuration_option_enum!` lives outside src/; the `ConfigType` trait doc in config.rs and section 4.1 of the spec fix the behaviour). -/
def TypeDensity.parse (s : String) : Option TypeDensity :=
  match s with
  | "Compressed" => some TypeDensity.Compressed
  | "Wide" => some TypeDensity.Wide
  | _ => none

/-- The `Debug` rendering of a `TypeDensity` variant (its name), as printed by `print_docs`. -/
def TypeDensity.debugStr : TypeDensity → String
  | TypeDensity.Compressed => "Compressed"
  | TypeDensity.Wide => "Wide"

/-- `configuration_option_enum! { LicensePolicy: ... }` (config.rs). -/
inductive LicensePolicy where
  | NoLicense
  | TextLicense
  | FileLicense
deriving DecidableEq

def LicensePolicy.variants : List String := ["NoLicense", "TextLicense", "FileLicense"]

/-- Modelled from the spec: decoding of a `LicensePolicy` value by exact, case-sensitive variant name (the `impl_enum_decodable!` macro invoked by `configuration_option_enum!` lives outside src/; the `ConfigType` trait doc in config.rs and section 4.1 of the spec fix the behaviour). -/
def LicensePolicy.parse (s : String) : Option LicensePolicy :=
  match s with
  | "NoLicense" => some LicensePolicy.NoLicense
  | "TextLicense" => some LicensePolicy.TextLicense
  | "FileLicense" => some LicensePolicy.FileLicense
  | _ => none

/-- The `Debug` rendering of a `LicensePolicy` variant (its name), as printed by `print_docs`. -/
def LicensePolicy.debugStr : LicensePolicy → String
  | LicensePolicy.NoLicense => "NoLicense"
  | LicensePolicy.TextLicense => "TextLicense"
  | LicensePolicy.FileLicense => "FileLicense"

/-- `configuration_option_enum! { MultilineStyle: ... }` (config.rs). -/
inductive MultilineStyle where
  | PreferSingle
  | ForceMulti
deriving DecidableEq

def MultilineStyle.variants : List String := ["PreferSingle", "ForceMulti"]

/-- Modelled from the spec: decoding of a `MultilineStyle` value by exact, case-sensitive variant name (the `impl_enum_decodable!` macro invoked by `configuration_option_enum!` lives outside src/; the `ConfigType` trait doc in config.rs and section 4.1 of the spec fix the behaviour). -/
def MultilineStyle.parse (s : String) : Option MultilineStyle :=
  match s with
  | "PreferSingle" => some MultilineStyle.PreferSingle
  | "ForceMulti" => some MultilineStyle.ForceMulti
  | _ => none

/-- The `Debug` rendering of a `MultilineStyle` variant (its name), as printed by `print_docs`. -/
def MultilineStyle.debugStr : MultilineStyle → String
  | MultilineStyle.PreferSingle => "PreferSingle"
  | MultilineStyle.ForceMulti => "ForceMulti"

/-- `configuration_option_enum! { ReportTactic: ... }` (config.rs). -/
inductive ReportTactic where
  | Always
  | Unnumbered
  | Never
deriving DecidableEq

def ReportTactic.variants : List String := ["Always", "Unnumbered", "Never"]

/-- Modelled from the spec: decoding of a `ReportTactic` value by exact, case-sensitive variant name (the `impl_enum_decodable!` macro invoked by `configuration_option_enum!` lives outside src/; the `ConfigType` trait doc in config.rs and section 4.1 of the spec fix the behaviour). -/
def ReportTactic.parse (s : String) : Option ReportTactic :=
  match s with
  | "Always" => some ReportTactic.Always
  | "Unnumbered" => some ReportTactic.Unnumbered
  | "Never" => some ReportTactic.Never
  | _ => none

/-- The `Debug` rendering of a `ReportTactic` variant (its name), as printed by `print_docs`. -/
def ReportTactic.debugStr : ReportTactic → String
  | ReportTactic.Always => "Always"
  | ReportTactic.Unnumbered => "Unnumbered"
  | ReportTactic.Never => "Never"

/-- `configuration_option_enum! { WriteMode: ... }` (config.rs). -/
inductive WriteMode where
  | Replace
  | Overwrite
  | Display
  | Diff
  | Coverage
  | Plain
  | Checkstyle
deriving DecidableEq

def WriteMode.variants : List String := ["Replace", "Overwrite", "Display", "Diff", "Coverage", "Plain", "Checkstyle"]

/-- Modelled from the spec: decoding of a `WriteMode` value by exact, case-sensitive variant name (the `impl_enum_decodable!` macro invoked by `configuration_option_enum!` lives outside src/; the `ConfigType` trait doc in config.rs and section 4.1 of the spec fix the behaviour). -/
def WriteMode.parse (s : String) : Option WriteMode :=
  match s with
  | "Replace" => some WriteMode.Replace
  | "Overwrite" => some WriteMode.Overwrite
  | "Display" => some WriteMode.Display
  | "Diff" => some WriteMode.Diff
  | "Coverage" => some WriteMode.Coverage
  | "Plain" => some WriteMode.Plain
  | "Checkstyle" => some WriteMode.Checkstyle
  | _ => none

/-- The `Debug` rendering of a `WriteMode` variant (its name), as printed by `print_docs`. -/
def WriteMode.debugStr : WriteMode → String
  | WriteMode.Replace => "Replace"
  | WriteMode.Overwrite => "Overwrite"
  | WriteMode.Display => "Display"
  | WriteMode.Diff => "Diff"
  | WriteMode.Coverage => "Coverage"
  | WriteMode.Plain => "Plain"
  | WriteMode.Checkstyle => "Checkstyle"

/-- Modelled from the spec: `ListTactic` is declared in lists.rs, which is not under src/; section 3 of the spec fixes its variants as Horizontal, Vertical, HorizontalVertical (fit-or-wrap) and Mixed. -/
inductive ListTactic where
  | Horizontal
  | Vertical
  | HorizontalVertical
  | Mixed
deriving DecidableEq

def ListTactic.variants : List String := ["Horizontal", "Vertical", "HorizontalVertical", "Mixed"]

/-- Modelled from the spec: decoding of a `ListTactic` value by exact, case-sensitive variant name (the `impl_enum_decodable!` macro invoked by `configuration_option_enum!` lives outside src/; the `ConfigType` trait doc in config.rs and section 4.1 of the spec fix the behaviour). -/
def ListTactic.parse (s : String) : Option ListTactic :=
  match s with
  | "Horizontal" => some ListTactic.Horizontal
  | "Vertical" => some ListTactic.Vertical
  | "HorizontalVertical" => some ListTactic.HorizontalVertical
  | "Mixed" => some ListTactic.Mixed
  | _ => none

/-- The `Debug` rendering of a `ListTactic` variant (its name), as printed by `print_docs`. -/
def ListTactic.debugStr : ListTactic → String
  | ListTactic.Horizontal => "Horizontal"
  | ListTactic.Vertical => "Vertical"
  | ListTactic.HorizontalVertical => "HorizontalVertical"
  | ListTactic.Mixed => "Mixed"

/-- Modelled from the spec: `SeparatorTactic` is declared in lists.rs, which is not under src/; section 4.3 of the spec fixes the trailing-separator policy as Always, Never or Vertical-only (the code refers to `SeparatorTactic::Vertical`). -/
inductive SeparatorTactic where
  | Always
  | Vertical
  | Never
deriving DecidableEq

def SeparatorTactic.variants : List String := ["Always", "Vertical", "Never"]

/-- Modelled from the spec: decoding of a `SeparatorTactic` value by exact, case-sensitive variant name (the `impl_enum_decodable!` macro invoked by `configuration_option_enum!` lives outside src/; the `ConfigType` trait doc in config.rs and section 4.1 of the spec fix the behaviour). -/
def SeparatorTactic.parse (s : String) : Option SeparatorTactic :=
  match s with
  | "Always" => some SeparatorTactic.Always
  | "Vertical" => some SeparatorTactic.Vertical
  | "Never" => some SeparatorTactic.Never
  | _ => none

/-- The `Debug` rendering of a `SeparatorTactic` variant (its name), as printed by `print_docs`. -/
def SeparatorTactic.debugStr : SeparatorTactic → String
  | SeparatorTactic.Always => "Always"
  | SeparatorTactic.Vertical => "Vertical"
  | SeparatorTactic.Never => "Never"

/-- Splitting a character list at every occurrence of a separator character. -/
def splitChar (sep : Char) : List Char → List (List Char)
  | [] => [[]]
  | c :: rest =>
    let r := splitChar sep rest
    if c == sep then [] :: r
    else
      match r with
      | [] => [[c]]
      | first :: others => (c :: first) :: others

/-- Splitting a string at every occurrence of a separator character. -/
def splitString (sep : Char) (s : String) : List String :=
  (splitChar sep s.toList).map String.mk

def strStartsWith (s pre : String) : Bool :=
  pre.toList.isPrefixOf s.toList

def strEndsWith (s suf : String) : Bool :=
  suf.toList.reverse.isPrefixOf s.toList.reverse

def strDrop (s : String) (n : Nat) : String :=
  String.mk (s.toList.drop n)

def strDropRight (s : String) (n : Nat) : String :=
  String.mk (s.toList.take (s.toList.length - n))

def strTrim (s : String) : String :=
  String.mk (((s.toList.dropWhile Char.isWhitespace).reverse.dropWhile
    Char.isWhitespace).reverse)

/-- The strings of a list joined with a separator. -/
def joinSep (sep : String) : List String → String
  | [] => ""
  | [x] => x
  | x :: xs => x ++ sep ++ joinSep sep xs

/-- Modelled from the spec: `doc_hint` for `NewlineStyle` is the pipe-separated list of its variants (`ConfigType::doc_hint` doc comment, config.rs lines 177-179). -/
def NewlineStyle.doc_hint : String := joinSep "|" NewlineStyle.variants

/-- Modelled from the spec: `doc_hint` for `BraceStyle` is the pipe-separated list of its variants (`ConfigType::doc_hint` doc comment, config.rs lines 177-179). -/
def BraceStyle.doc_hint : String := joinSep "|" BraceStyle.variants

/-- Modelled from the spec: `doc_hint` for `ControlBraceStyle` is the pipe-separated list of its variants (`ConfigType::doc_hint` doc comment, config.rs lines 177-179). -/
def ControlBraceStyle.doc_hint : String := joinSep "|" ControlBraceStyle.variants

/-- Modelled from the spec: `doc_hint` for `ElseIfBraceStyle` is the pipe-separated list of its variants (`ConfigType::doc_hint` doc comment, config.rs lines 177-179). -/
def ElseIfBraceStyle.doc_hint : String := joinSep "|" ElseIfBraceStyle.variants

/-- Modelled from the spec: `doc_hint` for `ReturnIndent` is the pipe-separated list of its variants (`ConfigType::doc_hint` doc comment, config.rs lines 177-179). -/
def ReturnIndent.doc_hint : String := joinSep "|" ReturnIndent.variants

/-- Modelled from the spec: `doc_hint` for `StructLitStyle` is the pipe-separated list of its variants (`ConfigType::doc_hint` doc comment, config.rs lines 177-179). -/
def StructLitStyle.doc_hint : String := joinSep "|" StructLitStyle.variants

/-- Modelled from the spec: `doc_hint` for `FnArgLayoutStyle` is the pipe-separated list of its variants (`ConfigType::doc_hint` doc comment, config.rs lines 177-179). -/
def FnArgLayoutStyle.doc_hint : String := joinSep "|" FnArgLayoutStyle.variants

/-- Modelled from the spec: `doc_hint` for `BlockIndentStyle` is the pipe-separated list of its variants (`ConfigType::doc_hint` doc comment, config.rs lines 177-179). -/
def BlockIndentStyle.doc_hint : String := joinSep "|" BlockIndentStyle.variants

/-- Modelled from the spec: `doc_hint` for `Density` is the pipe-separated list of its variants (`ConfigType::doc_hint` doc comment, config.rs lines 177-179). -/
def Density.doc_hint : String := joinSep "|" Density.variants

/-- Modelled from the spec: `doc_hint` for `TypeDensity` is the pipe-separated list of its variants (`ConfigType::doc_hint` doc comment, config.rs lines 177-179). -/
def TypeDensity.doc_hint : String := joinSep "|" TypeDensity.variants

/-- Modelled from the spec: `doc_hint` for `LicensePolicy` is the pipe-separated list of its variants (`ConfigType::doc_hint` doc comment, config.rs lines 177-179). -/
def LicensePolicy.doc_hint : String := joinSep "|" LicensePolicy.variants

/-- Modelled from the spec: `doc_hint` for `MultilineStyle` is the pipe-separated list of its variants (`ConfigType::doc_hint` doc comment, config.rs lines 177-179). -/
def MultilineStyle.doc_hint : String := joinSep "|" MultilineStyle.variants

/-- Modelled from the spec: `doc_hint` for `ReportTactic` is the pipe-separated list of its variants (`ConfigType::doc_hint` doc comment, config.rs lines 177-179). -/
def ReportTactic.doc_hint : String := joinSep "|" ReportTactic.variants

/-- Modelled from the spec: `doc_hint` for `WriteMode` is the pipe-separated list of its variants (`ConfigType::doc_hint` doc comment, config.rs lines 177-179). -/
def WriteMode.doc_hint : String := joinSep "|" WriteMode.variants

/-- Modelled from the spec: `doc_hint` for `ListTactic` is the pipe-separated list of its variants (`ConfigType::doc_hint` doc comment, config.rs lines 177-179). -/
def ListTactic.doc_hint : String := joinSep "|" ListTactic.variants

/-- Modelled from the spec: `doc_hint` for `SeparatorTactic` is the pipe-separated list of its variants (`ConfigType::doc_hint` doc comment, config.rs lines 177-179). -/
def SeparatorTactic.doc_hint : String := joinSep "|" SeparatorTactic.variants

/-- `ConfigType for bool` (config.rs lines 184-194): `parse` delegates to Rust's `bool::from_str`, which accepts exactly "true" and "false". -/
def parseBool (s : String) : Option Bool :=
  match s with
  | "true" => some true
  | "false" => some false
  | _ => none

/-- Decimal digits folded into a natural number. -/
def digitsToNat (t : List Char) : Nat :=
  t.foldl (fun n c => n * 10 + (c.toNat - 48)) 0

/-- `ConfigType for usize` (config.rs lines 196-206): `parse` delegates to `usize::from_str`: an optional leading plus sign followed by one or more decimal digits.  Platform word-size overflow is not modelled; values are unbounded naturals. -/
def parseUsize (s : String) : Option Nat :=
  let cs := s.toList
  let t := match cs with
    | '+' :: rest => rest
    | _ => cs
  if t.length != 0 && t.all Char.isDigit then some (digitsToNat t)
  else none

def boolDocHint : String := "<boolean>"

def usizeDocHint : String := "<unsigned integer>"

/-- The `Debug` rendering of a boolean, as printed by `print_docs`. -/
def boolDebugStr (b : Bool) : String := cond b "true" "false"

/-- The `Config` struct generated by `create_config!` (config.rs lines 255-427): one typed field per option, in declaration order. -/
structure Config where
  verbose : Bool
  skip_children : Bool
  max_width : Nat
  ideal_width : Nat
  tab_spaces : Nat
  fn_call_width : Nat
  struct_lit_width : Nat
  force_explicit_abi : Bool
  newline_style : NewlineStyle
  fn_brace_style : BraceStyle
  item_brace_style : BraceStyle
  else_if_brace_style : ElseIfBraceStyle
  control_brace_style : ControlBraceStyle
  impl_empty_single_line : Bool
  fn_empty_single_line : Bool
  fn_single_line : Bool
  fn_return_indent : ReturnIndent
  fn_args_paren_newline : Bool
  fn_args_density : Density
  fn_args_layout : FnArgLayoutStyle
  fn_arg_indent : BlockIndentStyle
  type_punctuation_density : TypeDensity
  where_density : Density
  where_indent : BlockIndentStyle
  where_layout : ListTactic
  where_pred_indent : BlockIndentStyle
  where_trailing_comma : Bool
  generics_indent : BlockIndentStyle
  struct_trailing_comma : SeparatorTactic
  struct_lit_trailing_comma : SeparatorTactic
  struct_lit_style : StructLitStyle
  struct_lit_multiline_style : MultilineStyle
  enum_trailing_comma : Bool
  report_todo : ReportTactic
  report_fixme : ReportTactic
  chain_base_indent : BlockIndentStyle
  chain_indent : BlockIndentStyle
  reorder_imports : Bool
  single_line_if_else : Bool
  format_strings : Bool
  force_format_strings : Bool
  chains_overflow_last : Bool
  take_source_hints : Bool
  hard_tabs : Bool
  wrap_comments : Bool
  normalise_comments : Bool
  wrap_match_arms : Bool
  match_block_trailing_comma : Bool
  match_wildcard_trailing_comma : Bool
  write_mode : WriteMode
deriving DecidableEq

/-- `ParsedConfig` (config.rs lines 262-270): the same fields, each wrapped in `Option`, produced by decoding a rustfmt.toml that need not set every option. -/
structure ParsedConfig where
  verbose : Option Bool
  skip_children : Option Bool
  max_width : Option Nat
  ideal_width : Option Nat
  tab_spaces : Option Nat
  fn_call_width : Option Nat
  struct_lit_width : Option Nat
  force_explicit_abi : Option Bool
  newline_style : Option NewlineStyle
  fn_brace_style : Option BraceStyle
  item_brace_style : Option BraceStyle
  else_if_brace_style : Option ElseIfBraceStyle
  control_brace_style : Option ControlBraceStyle
  impl_empty_single_line : Option Bool
  fn_empty_single_line : Option Bool
  fn_single_line : Option Bool
  fn_return_indent : Option ReturnIndent
  fn_args_paren_newline : Option Bool
  fn_args_density : Option Density
  fn_args_layout : Option FnArgLayoutStyle
  fn_arg_indent : Option BlockIndentStyle
  type_punctuation_density : Option TypeDensity
  where_density : Option Density
  where_indent : Option BlockIndentStyle
  where_layout : Option ListTactic
  where_pred_indent : Option BlockIndentStyle
  where_trailing_comma : Option Bool
  generics_indent : Option BlockIndentStyle
  struct_trailing_comma : Option SeparatorTactic
  struct_lit_trailing_comma : Option SeparatorTactic
  struct_lit_style : Option StructLitStyle
  struct_lit_multiline_style : Option MultilineStyle
  enum_trailing_comma : Option Bool
  report_todo : Option ReportTactic
  report_fixme : Option ReportTactic
  chain_base_indent : Option BlockIndentStyle
  chain_indent : Option BlockIndentStyle
  reorder_imports : Option Bool
  single_line_if_else : Option Bool
  format_strings : Option Bool
  force_format_strings : Option Bool
  chains_overflow_last : Option Bool
  take_source_hints : Option Bool
  hard_tabs : Option Bool
  wrap_comments : Option Bool
  normalise_comments : Option Bool
  wrap_match_arms : Option Bool
  match_block_trailing_comma : Option Bool
  match_wildcard_trailing_comma : Option Bool
  write_mode : Option WriteMode
deriving DecidableEq

/-- `impl Default for Config` (config.rs lines 343-352): every option at the default declared in the `create_config!` table. -/
def Config.default : Config where
  verbose := false
  skip_children := false
  max_width := 100
  ideal_width := 80
  tab_spaces := 4
  fn_call_width := 60
  struct_lit_width := 16
  force_explicit_abi := true
  newline_style := NewlineStyle.Unix
  fn_brace_style := BraceStyle.SameLineWhere
  item_brace_style := BraceStyle.SameLineWhere
  else_if_brace_style := ElseIfBraceStyle.AlwaysSameLine
  control_brace_style := ControlBraceStyle.AlwaysSameLine
  impl_empty_single_line := true
  fn_empty_single_line := true
  fn_single_line := false
  fn_return_indent := ReturnIndent.WithArgs
  fn_args_paren_newline := true
  fn_args_density := Density.Tall
  fn_args_layout := FnArgLayoutStyle.Visual
  fn_arg_indent := BlockIndentStyle.Visual
  type_punctuation_density := TypeDensity.Wide
  where_density := Density.CompressedIfEmpty
  where_indent := BlockIndentStyle.Tabbed
  where_layout := ListTactic.Vertical
  where_pred_indent := BlockIndentStyle.Visual
  where_trailing_comma := false
  generics_indent := BlockIndentStyle.Visual
  struct_trailing_comma := SeparatorTactic.Vertical
  struct_lit_trailing_comma := SeparatorTactic.Vertical
  struct_lit_style := StructLitStyle.Block
  struct_lit_multiline_style := MultilineStyle.PreferSingle
  enum_trailing_comma := true
  report_todo := ReportTactic.Never
  report_fixme := ReportTactic.Never
  chain_base_indent := BlockIndentStyle.Visual
  chain_indent := BlockIndentStyle.Visual
  reorder_imports := false
  single_line_if_else := false
  format_strings := true
  force_format_strings := false
  chains_overflow_last := true
  take_source_hints := true
  hard_tabs := false
  wrap_comments := false
  normalise_comments := true
  wrap_match_arms := true
  match_block_trailing_comma := false
  match_wildcard_trailing_comma := true
  write_mode := WriteMode.Replace

-- if let Some(val) = parsed.verbose { self.verbose = val; }
def Config.fillStep_verbose (self : Config) (o : Option Bool) : Config :=
  match o with
  | some val => { self with verbose := val }
  | none => self

-- if let Some(val) = parsed.skip_children { self.skip_children = val; }
def Config.fillStep_skip_children (self : Config) (o : Option Bool) : Config :=
  match o with
  | some val => { self with skip_children := val }
  | none => self

-- if let Some(val) = parsed.max_width { self.max_width = val; }
def Config.fillStep_max_width (self : Config) (o : Option Nat) : Config :=
  match o with
  | some val => { self with max_width := val }
  | none => self

-- if let Some(val) = parsed.ideal_width { self.ideal_width = val; }
def Config.fillStep_ideal_width (self : Config) (o : Option Nat) : Config :=
  match o with
  | some val => { self with ideal_width := val }
  | none => self

-- if let Some(val) = parsed.tab_spaces { self.tab_spaces = val; }
def Config.fillStep_tab_spaces (self : Config) (o : Option Nat) : Config :=
  match o with
  | some val => { self with tab_spaces := val }
  | none => self

-- if let Some(val) = parsed.fn_call_width { self.fn_call_width = val; }
def Config.fillStep_fn_call_width (self : Config) (o : Option Nat) : Config :=
  match o with
  | some val => { self with fn_call_width := val }
  | none => self

-- if let Some(val) = parsed.struct_lit_width { self.struct_lit_width = val; }
def Config.fillStep_struct_lit_width (self : Config) (o : Option Nat) : Config :=
  match o with
  | some val => { self with struct_lit_width := val }
  | none => self

-- if let Some(val) = parsed.force_explicit_abi { self.force_explicit_abi = val; }
def Config.fillStep_force_explicit_abi (self : Config) (o : Option Bool) : Config :=
  match o with
  | some val => { self with force_explicit_abi := val }
  | none => self

-- if let Some(val) = parsed.newline_style { self.newline_style = val; }
def Config.fillStep_newline_style (self : Config) (o : Option NewlineStyle) : Config :=
  match o with
  | some val => { self with newline_style := val }
  | none => self

-- if let Some(val) = parsed.fn_brace_style { self.fn_brace_style = val; }
def Config.fillStep_fn_brace_style (self : Config) (o : Option BraceStyle) : Config :=
  match o with
  | some val => { self with fn_brace_style := val }
  | none => self

-- if let Some(val) = parsed.item_brace_style { self.item_brace_style = val; }
def Config.fillStep_item_brace_style (self : Config) (o : Option BraceStyle) : Config :=
  match o with
  | some val => { self with item_brace_style := val }
  | none => self

-- if let Some(val) = parsed.else_if_brace_style { self.else_if_brace_style = val; }
def Config.fillStep_else_if_brace_style (self : Config) (o : Option ElseIfBraceStyle) : Config :=
  match o with
  | some val => { self with else_if_brace_style := val }
  | none => self

-- if let Some(val) = parsed.control_brace_style { self.control_brace_style = val; }
def Config.fillStep_control_brace_style (self : Config) (o : Option ControlBraceStyle) : Config :=
  match o with
  | some val => { self with control_brace_style := val }
  | none => self

-- if let Some(val) = parsed.impl_empty_single_line { self.impl_empty_single_line = val; }
def Config.fillStep_impl_empty_single_line (self : Config) (o : Option Bool) : Config :=
  match o with
  | some val => { self with impl_empty_single_line := val }
  | none => self

-- if let Some(val) = parsed.fn_empty_single_line { self.fn_empty_single_line = val; }
def Config.fillStep_fn_empty_single_line (self : Config) (o : Option Bool) : Config :=
  match o with
  | some val => { self with fn_empty_single_line := val }
  | none => self

-- if let Some(val) = parsed.fn_single_line { self.fn_single_line = val; }
def Config.fillStep_fn_single_line (self : Config) (o : Option Bool) : Config :=
  match o with
  | some val => { self with fn_single_line := val }
  | none => self

-- if let Some(val) = parsed.fn_return_indent { self.fn_return_indent = val; }
def Config.fillStep_fn_return_indent (self : Config) (o : Option ReturnIndent) : Config :=
  match o with
  | some val => { self with fn_return_indent := val }
  | none => self

-- if let Some(val) = parsed.fn_args_paren_newline { self.fn_args_paren_newline = val; }
def Config.fillStep_fn_args_paren_newline (self : Config) (o : Option Bool) : Config :=
  match o with
  | some val => { self with fn_args_paren_newline := val }
  | none => self

-- if let Some(val) = parsed.fn_args_density { self.fn_args_density = val; }
def Config.fillStep_fn_args_density (self : Config) (o : Option Density) : Config :=
  match o with
  | some val => { self with fn_args_density := val }
  | none => self

-- if let Some(val) = parsed.fn_args_layout { self.fn_args_layout = val; }
def Config.fillStep_fn_args_layout (self : Config) (o : Option FnArgLayoutStyle) : Config :=
  match o with
  | some val => { self with fn_args_layout := val }
  | none => self

-- if let Some(val) = parsed.fn_arg_indent { self.fn_arg_indent = val; }
def Config.fillStep_fn_arg_indent (self : Config) (o : Option BlockIndentStyle) : Config :=
  match o with
  | some val => { self with fn_arg_indent := val }
  | none => self

-- if let Some(val) = parsed.type_punctuation_density { self.type_punctuation_density = val; }
def Config.fillStep_type_punctuation_density (self : Config) (o : Option TypeDensity) : Config :=
  match o with
  | some val => { self with type_punctuation_density := val }
  | none => self

-- if let Some(val) = parsed.where_density { self.where_density = val; }
def Config.fillStep_where_density (self : Config) (o : Option Density) : Config :=
  match o with
  | some val => { self with where_density := val }
  | none => self

-- if let Some(val) = parsed.where_indent { self.where_indent = val; }
def Config.fillStep_where_indent (self : Config) (o : Option BlockIndentStyle) : Config :=
  match o with
  | some val => { self with where_indent := val }
  | none => self

-- if let Some(val) = parsed.where_layout { self.where_layout = val; }
def Config.fillStep_where_layout (self : Config) (o : Option ListTactic) : Config :=
  match o with
  | some val => { self with where_layout := val }
  | none => self

-- if let Some(val) = parsed.where_pred_indent { self.where_pred_indent = val; }
def Config.fillStep_where_pred_indent (self : Config) (o : Option BlockIndentStyle) : Config :=
  match o with
  | some val => { self with where_pred_indent := val }
  | none => self

-- if let Some(val) = parsed.where_trailing_comma { self.where_trailing_comma = val; }
def Config.fillStep_where_trailing_comma (self : Config) (o : Option Bool) : Config :=
  match o with
  | some val => { self with where_trailing_comma := val }
  | none => self

-- if let Some(val) = parsed.generics_indent { self.generics_indent = val; }
def Config.fillStep_generics_indent (self : Config) (o : Option BlockIndentStyle) : Config :=
  match o with
  | some val => { self with generics_indent := val }
  | none => self

-- if let Some(val) = parsed.struct_trailing_comma { self.struct_trailing_comma = val; }
def Config.fillStep_struct_trailing_comma (self : Config) (o : Option SeparatorTactic) : Config :=
  match o with
  | some val => { self with struct_trailing_comma := val }
  | none => self

-- if let Some(val) = parsed.struct_lit_trailing_comma { self.struct_lit_trailing_comma = val; }
def Config.fillStep_struct_lit_trailing_comma (self : Config) (o : Option SeparatorTactic) : Config :=
  match o with
  | some val => { self with struct_lit_trailing_comma := val }
  | none => self

-- if let Some(val) = parsed.struct_lit_style { self.struct_lit_style = val; }
def Config.fillStep_struct_lit_style (self : Config) (o : Option StructLitStyle) : Config :=
  match o with
  | some val => { self with struct_lit_style := val }
  | none => self

-- if let Some(val) = parsed.struct_lit_multiline_style { self.struct_lit_multiline_style = val; }
def Config.fillStep_struct_lit_multiline_style (self : Config) (o : Option MultilineStyle) : Config :=
  match o with
  | some val => { self with struct_lit_multiline_style := val }
  | none => self

-- if let Some(val) = parsed.enum_trailing_comma { self.enum_trailing_comma = val; }
def Config.fillStep_enum_trailing_comma (self : Config) (o : Option Bool) : Config :=
  match o with
  | some val => { self with enum_trailing_comma := val }
  | none => self

-- if let Some(val) = parsed.report_todo { self.report_todo = val; }
def Config.fillStep_report_todo (self : Config) (o : Option ReportTactic) : Config :=
  match o with
  | some val => { self with report_todo := val }
  | none => self

-- if let Some(val) = parsed.report_fixme { self.report_fixme = val; }
def Config.fillStep_report_fixme (self : Config) (o : Option ReportTactic) : Config :=
  match o with
  | some val => { self with report_fixme := val }
  | none => self

-- if let Some(val) = parsed.chain_base_indent { self.chain_base_indent = val; }
def Config.fillStep_chain_base_indent (self : Config) (o : Option BlockIndentStyle) : Config :=
  match o with
  | some val => { self with chain_base_indent := val }
  | none => self

-- if let Some(val) = parsed.chain_indent { self.chain_indent = val; }
def Config.fillStep_chain_indent (self : Config) (o : Option BlockIndentStyle) : Config :=
  match o with
  | some val => { self with chain_indent := val }
  | none => self

-- if let Some(val) = parsed.reorder_imports { self.reorder_imports = val; }
def Config.fillStep_reorder_imports (self : Config) (o : Option Bool) : Config :=
  match o with
  | some val => { self with reorder_imports := val }
  | none => self

-- if let Some(val) = parsed.single_line_if_else { self.single_line_if_else = val; }
def Config.fillStep_single_line_if_else (self : Config) (o : Option Bool) : Config :=
  match o with
  | some val => { self with single_line_if_else := val }
  | none => self

-- if let Some(val) = parsed.format_strings { self.format_strings = val; }
def Config.fillStep_format_strings (self : Config) (o : Option Bool) : Config :=
  match o with
  | some val => { self with format_strings := val }
  | none => self

-- if let Some(val) = parsed.force_format_strings { self.force_format_strings = val; }
def Config.fillStep_force_format_strings (self : Config) (o : Option Bool) : Config :=
  match o with
  | some val => { self with force_format_strings := val }
  | none => self

-- if let Some(val) = parsed.chains_overflow_last { self.chains_overflow_last = val; }
def Config.fillStep_chains_overflow_last (self : Config) (o : Option Bool) : Config :=
  match o with
  | some val => { self with chains_overflow_last := val }
  | none => self

-- if let Some(val) = parsed.take_source_hints { self.take_source_hints = val; }
def Config.fillStep_take_source_hints (self : Config) (o : Option Bool) : Config :=
  match o with
  | some val => { self with take_source_hints := val }
  | none => self

-- if let Some(val) = parsed.hard_tabs { self.hard_tabs = val; }
def Config.fillStep_hard_tabs (self : Config) (o : Option Bool) : Config :=
  match o with
  | some val => { self with hard_tabs := val }
  | none => self

-- if let Some(val) = parsed.wrap_comments { self.wrap_comments = val; }
def Config.fillStep_wrap_comments (self : Config) (o : Option Bool) : Config :=
  match o with
  | some val => { self with wrap_comments := val }
  | none => self

-- if let Some(val) = parsed.normalise_comments { self.normalise_comments = val; }
def Config.fillStep_normalise_comments (self : Config) (o : Option Bool) : Config :=
  match o with
  | some val => { self with normalise_comments := val }
  | none => self

-- if let Some(val) = parsed.wrap_match_arms { self.wrap_match_arms = val; }
def Config.fillStep_wrap_match_arms (self : Config) (o : Option Bool) : Config :=
  match o with
  | some val => { self with wrap_match_arms := val }
  | none => self

-- if let Some(val) = parsed.match_block_trailing_comma { self.match_block_trailing_comma = val; }
def Config.fillStep_match_block_trailing_comma (self : Config) (o : Option Bool) : Config :=
  match o with
  | some val => { self with match_block_trailing_comma := val }
  | none => self

-- if let Some(val) = parsed.match_wildcard_trailing_comma { self.match_wildcard_trailing_comma = val; }
def Config.fillStep_match_wildcard_trailing_comma (self : Config) (o : Option Bool) : Config :=
  match o with
  | some val => { self with match_wildcard_trailing_comma := val }
  | none => self

-- if let Some(val) = parsed.write_mode { self.write_mode = val; }
def Config.fillStep_write_mode (self : Config) (o : Option WriteMode) : Config :=
  match o with
  | some val => { self with write_mode := val }
  | none => self

/-- `Config::fill_from_parsed_config` (config.rs lines 274-281): one `if let Some(val)` assignment per option, in declaration order. -/
def Config.fill_from_parsed_config (self : Config) (parsed : ParsedConfig) : Config :=
  let self' := self.fillStep_verbose parsed.verbose
  let self' := self'.fillStep_skip_children parsed.skip_children
  let self' := self'.fillStep_max_width parsed.max_width
  let self' := self'.fillStep_ideal_width parsed.ideal_width
  let self' := self'.fillStep_tab_spaces parsed.tab_spaces
  let self' := self'.fillStep_fn_call_width parsed.fn_call_width
  let self' := self'.fillStep_struct_lit_width parsed.struct_lit_width
  let self' := self'.fillStep_force_explicit_abi parsed.force_explicit_abi
  let self' := self'.fillStep_newline_style parsed.newline_style
  let self' := self'.fillStep_fn_brace_style parsed.fn_brace_style
  let self' := self'.fillStep_item_brace_style parsed.item_brace_style
  let self' := self'.fillStep_else_if_brace_style parsed.else_if_brace_style
  let self' := self'.fillStep_control_brace_style parsed.control_brace_style
  let self' := self'.fillStep_impl_empty_single_line parsed.impl_empty_single_line
  let self' := self'.fillStep_fn_empty_single_line parsed.fn_empty_single_line
  let self' := self'.fillStep_fn_single_line parsed.fn_single_line
  let self' := self'.fillStep_fn_return_indent parsed.fn_return_indent
  let self' := self'.fillStep_fn_args_paren_newline parsed.fn_args_paren_newline
  let self' := self'.fillStep_fn_args_density parsed.fn_args_density
  let self' := self'.fillStep_fn_args_layout parsed.fn_args_layout
  let self' := self'.fillStep_fn_arg_indent parsed.fn_arg_indent
  let self' := self'.fillStep_type_punctuation_density parsed.type_punctuation_density
  let self' := self'.fillStep_where_density parsed.where_density
  let self' := self'.fillStep_where_indent parsed.where_indent
  let self' := self'.fillStep_where_layout parsed.where_layout
  let self' := self'.fillStep_where_pred_indent parsed.where_pred_indent
  let self' := self'.fillStep_where_trailing_comma parsed.where_trailing_comma
  let self' := self'.fillStep_generics_indent parsed.generics_indent
  let self' := self'.fillStep_struct_trailing_comma parsed.struct_trailing_comma
  let self' := self'.fillStep_struct_lit_trailing_comma parsed.struct_lit_trailing_comma
  let self' := self'.fillStep_struct_lit_style parsed.struct_lit_style
  let self' := self'.fillStep_struct_lit_multiline_style parsed.struct_lit_multiline_style
  let self' := self'.fillStep_enum_trailing_comma parsed.enum_trailing_comma
  let self' := self'.fillStep_report_todo parsed.report_todo
  let self' := self'.fillStep_report_fixme parsed.report_fixme
  let self' := self'.fillStep_chain_base_indent parsed.chain_base_indent
  let self' := self'.fillStep_chain_indent parsed.chain_indent
  let self' := self'.fillStep_reorder_imports parsed.reorder_imports
  let self' := self'.fillStep_single_line_if_else parsed.single_line_if_else
  let self' := self'.fillStep_format_strings parsed.format_strings
  let self' := self'.fillStep_force_format_strings parsed.force_format_strings
  let self' := self'.fillStep_chains_overflow_last parsed.chains_overflow_last
  let self' := self'.fillStep_take_source_hints parsed.take_source_hints
  let self' := self'.fillStep_hard_tabs parsed.hard_tabs
  let self' := self'.fillStep_wrap_comments parsed.wrap_comments
  let self' := self'.fillStep_normalise_comments parsed.normalise_comments
  let self' := self'.fillStep_wrap_match_arms parsed.wrap_match_arms
  let self' := self'.fillStep_match_block_trailing_comma parsed.match_block_trailing_comma
  let self' := self'.fillStep_match_wildcard_trailing_comma parsed.match_wildcard_trailing_comma
  let self' := self'.fillStep_write_mode parsed.write_mode
  self'

/-- Outcome of `Config::override_value` (config.rs lines 297-310).  `ok` and `panicked` are the two outcomes the code can produce: `panicked` models the `expect`/`panic!` aborts on an unparsable value or an unknown key (the panic message is abstracted away).  `invalidOverride` is the error result the specification describes; it is included so the specification's contract is expressible, but no code path returns it. -/
inductive OverrideOutcome where
  | ok (c : Config)
  | invalidOverride
  | panicked
deriving DecidableEq

/-- A configuration value of any of the kinds appearing in the option table. -/
inductive OptValue where
  | boolVal (x : Bool)
  | natVal (x : Nat)
  | newlineStyleVal (x : NewlineStyle)
  | braceStyleVal (x : BraceStyle)
  | controlBraceStyleVal (x : ControlBraceStyle)
  | elseIfBraceStyleVal (x : ElseIfBraceStyle)
  | returnIndentVal (x : ReturnIndent)
  | structLitStyleVal (x : StructLitStyle)
  | fnArgLayoutStyleVal (x : FnArgLayoutStyle)
  | blockIndentStyleVal (x : BlockIndentStyle)
  | densityVal (x : Density)
  | typeDensityVal (x : TypeDensity)
  | licensePolicyVal (x : LicensePolicy)
  | multilineStyleVal (x : MultilineStyle)
  | reportTacticVal (x : ReportTactic)
  | writeModeVal (x : WriteMode)
  | listTacticVal (x : ListTactic)
  | separatorTacticVal (x : SeparatorTactic)
deriving DecidableEq

/-- `Config::override_value` (config.rs lines 297-310): the `match key` tests the key against each option name in turn; it is embedded as the equivalent chain of equality tests.  The value is parsed at the matched key's declared type; success assigns the named option, a parse failure or an unknown key panics. -/
def Config.override_value (self : Config) (key val : String) : OverrideOutcome :=
  if key == "verbose" then
    match parseBool val with
    | some v => OverrideOutcome.ok { self with verbose := v }
    | none => OverrideOutcome.panicked
  else if key == "skip_children" then
    match parseBool val with
    | some v => OverrideOutcome.ok { self with skip_children := v }
    | none => OverrideOutcome.panicked
  else if key == "max_width" then
    match parseUsize val with
    | some v => OverrideOutcome.ok { self with max_width := v }
    | none => OverrideOutcome.panicked
  else if key == "ideal_width" then
    match parseUsize val with
    | some v => OverrideOutcome.ok { self with ideal_width := v }
    | none => OverrideOutcome.panicked
  else if key == "tab_spaces" then
    match parseUsize val with
    | some v => OverrideOutcome.ok { self with tab_spaces := v }
    | none => OverrideOutcome.panicked
  else if key == "fn_call_width" then
    match parseUsize val with
    | some v => OverrideOutcome.ok { self with fn_call_width := v }
    | none => OverrideOutcome.panicked
  else if key == "struct_lit_width" then
    match parseUsize val with
    | some v => OverrideOutcome.ok { self with struct_lit_width := v }
    | none => OverrideOutcome.panicked
  else if key == "force_explicit_abi" then
    match parseBool val with
    | some v => OverrideOutcome.ok { self with force_explicit_abi := v }
    | none => OverrideOutcome.panicked
  else if key == "newline_style" then
    match NewlineStyle.parse val with
    | some v => OverrideOutcome.ok { self with newline_style := v }
    | none => OverrideOutcome.panicked
  else if key == "fn_brace_style" then
    match BraceStyle.parse val with
    | some v => OverrideOutcome.ok { self with fn_brace_style := v }
    | none => OverrideOutcome.panicked
  else if key == "item_brace_style" then
    match BraceStyle.parse val with
    | some v => OverrideOutcome.ok { self with item_brace_style := v }
    | none => OverrideOutcome.panicked
  else if key == "else_if_brace_style" then
    match ElseIfBraceStyle.parse val with
    | some v => OverrideOutcome.ok { self with else_if_brace_style := v }
    | none => OverrideOutcome.panicked
  else if key == "control_brace_style" then
    match ControlBraceStyle.parse val with
    | some v => OverrideOutcome.ok { self with control_brace_style := v }
    | none => OverrideOutcome.panicked
  else if key == "impl_empty_single_line" then
    match parseBool val with
    | some v => OverrideOutcome.ok { self with impl_empty_single_line := v }
    | none => OverrideOutcome.panicked
  else if key == "fn_empty_single_line" then
    match parseBool val with
    | some v => OverrideOutcome.ok { self with fn_empty_single_line := v }
    | none => OverrideOutcome.panicked
  else if key == "fn_single_line" then
    match parseBool val with
    | some v => OverrideOutcome.ok { self with fn_single_line := v }
    | none => OverrideOutcome.panicked
  else if key == "fn_return_indent" then
    match ReturnIndent.parse val with
    | some v => OverrideOutcome.ok { self with fn_return_indent := v }
    | none => OverrideOutcome.panicked
  else if key == "fn_args_paren_newline" then
    match parseBool val with
    | some v => OverrideOutcome.ok { self with fn_args_paren_newline := v }
    | none => OverrideOutcome.panicked
  else if key == "fn_args_density" then
    match Density.parse val with
    | some v => OverrideOutcome.ok { self with fn_args_density := v }
    | none => OverrideOutcome.panicked
  else if key == "fn_args_layout" then
    match FnArgLayoutStyle.parse val with
    | some v => OverrideOutcome.ok { self with fn_args_layout := v }
    | none => OverrideOutcome.panicked
  else if key == "fn_arg_indent" then
    match BlockIndentStyle.parse val with
    | some v => OverrideOutcome.ok { self with fn_arg_indent := v }
    | none => OverrideOutcome.panicked
  else if key == "type_punctuation_density" then
    match TypeDensity.parse val with
    | some v => OverrideOutcome.ok { self with type_punctuation_density := v }
    | none => OverrideOutcome.panicked
  else if key == "where_density" then
    match Density.parse val with
    | some v => OverrideOutcome.ok { self with where_density := v }
    | none => OverrideOutcome.panicked
  else if key == "where_indent" then
    match BlockIndentStyle.parse val with
    | some v => OverrideOutcome.ok { self with where_indent := v }
    | none => OverrideOutcome.panicked
  else if key == "where_layout" then
    match ListTactic.parse val with
    | some v => OverrideOutcome.ok { self with where_layout := v }
    | none => OverrideOutcome.panicked
  else if key == "where_pred_indent" then
    match BlockIndentStyle.parse val with
    | some v => OverrideOutcome.ok { self with where_pred_indent := v }
    | none => OverrideOutcome.panicked
  else if key == "where_trailing_comma" then
    match parseBool val with
    | some v => OverrideOutcome.ok { self with where_trailing_comma := v }
    | none => OverrideOutcome.panicked
  else if key == "generics_indent" then
    match BlockIndentStyle.parse val with
    | some v => OverrideOutcome.ok { self with generics_indent := v }
    | none => OverrideOutcome.panicked
  else if key == "struct_trailing_comma" then
    match SeparatorTactic.parse val with
    | some v => OverrideOutcome.ok { self with struct_trailing_comma := v }
    | none => OverrideOutcome.panicked
  else if key == "struct_lit_trailing_comma" then
    match SeparatorTactic.parse val with
    | some v => OverrideOutcome.ok { self with struct_lit_trailing_comma := v }
    | none => OverrideOutcome.panicked
  else if key == "struct_lit_style" then
    match StructLitStyle.parse val with
    | some v => OverrideOutcome.ok { self with struct_lit_style := v }
    | none => OverrideOutcome.panicked
  else if key == "struct_lit_multiline_style" then
    match MultilineStyle.parse val with
    | some v => OverrideOutcome.ok { self with struct_lit_multiline_style := v }
    | none => OverrideOutcome.panicked
  else if key == "enum_trailing_comma" then
    match parseBool val with
    | some v => OverrideOutcome.ok { self with enum_trailing_comma := v }
    | none => OverrideOutcome.panicked
  else if key == "report_todo" then
    match ReportTactic.parse val with
    | some v => OverrideOutcome.ok { self with report_todo := v }
    | none => OverrideOutcome.panicked
  else if key == "report_fixme" then
    match ReportTactic.parse val with
    | some v => OverrideOutcome.ok { self with report_fixme := v }
    | none => OverrideOutcome.panicked
  else if key == "chain_base_indent" then
    match BlockIndentStyle.parse val with
    | some v => OverrideOutcome.ok { self with chain_base_indent := v }
    | none => OverrideOutcome.panicked
  else if key == "chain_indent" then
    match BlockIndentStyle.parse val with
    | some v => OverrideOutcome.ok { self with chain_indent := v }
    | none => OverrideOutcome.panicked
  else if key == "reorder_imports" then
    match parseBool val with
    | some v => OverrideOutcome.ok { self with reorder_imports := v }
    | none => OverrideOutcome.panicked
  else if key == "single_line_if_else" then
    match parseBool val with
    | some v => OverrideOutcome.ok { self with single_line_if_else := v }
    | none => OverrideOutcome.panicked
  else if key == "format_strings" then
    match parseBool val with
    | some v => OverrideOutcome.ok { self with format_strings := v }
    | none => OverrideOutcome.panicked
  else if key == "force_format_strings" then
    match parseBool val with
    | some v => OverrideOutcome.ok { self with force_format_strings := v }
    | none => OverrideOutcome.panicked
  else if key == "chains_overflow_last" then
    match parseBool val with
    | some v => OverrideOutcome.ok { self with chains_overflow_last := v }
    | none => OverrideOutcome.panicked
  else if key == "take_source_hints" then
    match parseBool val with
    | some v => OverrideOutcome.ok { self with take_source_hints := v }
    | none => OverrideOutcome.panicked
  else if key == "hard_tabs" then
    match parseBool val with
    | some v => OverrideOutcome.ok { self with hard_tabs := v }
    | none => OverrideOutcome.panicked
  else if key == "wrap_comments" then
    match parseBool val with
    | some v => OverrideOutcome.ok { self with wrap_comments := v }
    | none => OverrideOutcome.panicked
  else if key == "normalise_comments" then
    match parseBool val with
    | some v => OverrideOutcome.ok { self with normalise_comments := v }
    | none => OverrideOutcome.panicked
  else if key == "wrap_match_arms" then
    match parseBool val with
    | some v => OverrideOutcome.ok { self with wrap_match_arms := v }
    | none => OverrideOutcome.panicked
  else if key == "match_block_trailing_comma" then
    match parseBool val with
    | some v => OverrideOutcome.ok { self with match_block_trailing_comma := v }
    | none => OverrideOutcome.panicked
  else if key == "match_wildcard_trailing_comma" then
    match parseBool val with
    | some v => OverrideOutcome.ok { self with match_wildcard_trailing_comma := v }
    | none => OverrideOutcome.panicked
  else if key == "write_mode" then
    match WriteMode.parse val with
    | some v => OverrideOutcome.ok { self with write_mode := v }
    | none => OverrideOutcome.panicked
  else OverrideOutcome.panicked

/-- The static option schema as the specification describes it: each key parses its value at the key's statically known type (boolean via true/false, unsigned integer via decimal digits, enum via exact case-sensitive variant name); an unknown key parses nothing. -/
def parseOverrideAt (key val : String) : Option OptValue :=
  if key == "verbose" then (parseBool val).map OptValue.boolVal
  else if key == "skip_children" then (parseBool val).map OptValue.boolVal
  else if key == "max_width" then (parseUsize val).map OptValue.natVal
  else if key == "ideal_width" then (parseUsize val).map OptValue.natVal
  else if key == "tab_spaces" then (parseUsize val).map OptValue.natVal
  else if key == "fn_call_width" then (parseUsize val).map OptValue.natVal
  else if key == "struct_lit_width" then (parseUsize val).map OptValue.natVal
  else if key == "force_explicit_abi" then (parseBool val).map OptValue.boolVal
  else if key == "newline_style" then (NewlineStyle.parse val).map OptValue.newlineStyleVal
  else if key == "fn_brace_style" then (BraceStyle.parse val).map OptValue.braceStyleVal
  else if key == "item_brace_style" then (BraceStyle.parse val).map OptValue.braceStyleVal
  else if key == "else_if_brace_style" then (ElseIfBraceStyle.parse val).map OptValue.elseIfBraceStyleVal
  else if key == "control_brace_style" then (ControlBraceStyle.parse val).map OptValue.controlBraceStyleVal
  else if key == "impl_empty_single_line" then (parseBool val).map OptValue.boolVal
  else if key == "fn_empty_single_line" then (parseBool val).map OptValue.boolVal
  else if key == "fn_single_line" then (parseBool val).map OptValue.boolVal
  else if key == "fn_return_indent" then (ReturnIndent.parse val).map OptValue.returnIndentVal
  else if key == "fn_args_paren_newline" then (parseBool val).map OptValue.boolVal
  else if key == "fn_args_density" then (Density.parse val).map OptValue.densityVal
  else if key == "fn_args_layout" then (FnArgLayoutStyle.parse val).map OptValue.fnArgLayoutStyleVal
  else if key == "fn_arg_indent" then (BlockIndentStyle.parse val).map OptValue.blockIndentStyleVal
  else if key == "type_punctuation_density" then (TypeDensity.parse val).map OptValue.typeDensityVal
  else if key == "where_density" then (Density.parse val).map OptValue.densityVal
  else if key == "where_indent" then (BlockIndentStyle.parse val).map OptValue.blockIndentStyleVal
  else if key == "where_layout" then (ListTactic.parse val).map OptValue.listTacticVal
  else if key == "where_pred_indent" then (BlockIndentStyle.parse val).map OptValue.blockIndentStyleVal
  else if key == "where_trailing_comma" then (parseBool val).map OptValue.boolVal
  else if key == "generics_indent" then (BlockIndentStyle.parse val).map OptValue.blockIndentStyleVal
  else if key == "struct_trailing_comma" then (SeparatorTactic.parse val).map OptValue.separatorTacticVal
  else if key == "struct_lit_trailing_comma" then (SeparatorTactic.parse val).map OptValue.separatorTacticVal
  else if key == "struct_lit_style" then (StructLitStyle.parse val).map OptValue.structLitStyleVal
  else if key == "struct_lit_multiline_style" then (MultilineStyle.parse val).map OptValue.multilineStyleVal
  else if key == "enum_trailing_comma" then (parseBool val).map OptValue.boolVal
  else if key == "report_todo" then (ReportTactic.parse val).map OptValue.reportTacticVal
  else if key == "report_fixme" then (ReportTactic.parse val).map OptValue.reportTacticVal
  else if key == "chain_base_indent" then (BlockIndentStyle.parse val).map OptValue.blockIndentStyleVal
  else if key == "chain_indent" then (BlockIndentStyle.parse val).map OptValue.blockIndentStyleVal
  else if key == "reorder_imports" then (parseBool val).map OptValue.boolVal
  else if key == "single_line_if_else" then (parseBool val).map OptValue.boolVal
  else if key == "format_strings" then (parseBool val).map OptValue.boolVal
  else if key == "force_format_strings" then (parseBool val).map OptValue.boolVal
  else if key == "chains_overflow_last" then (parseBool val).map OptValue.boolVal
  else if key == "take_source_hints" then (parseBool val).map OptValue.boolVal
  else if key == "hard_tabs" then (parseBool val).map OptValue.boolVal
  else if key == "wrap_comments" then (parseBool val).map OptValue.boolVal
  else if key == "normalise_comments" then (parseBool val).map OptValue.boolVal
  else if key == "wrap_match_arms" then (parseBool val).map OptValue.boolVal
  else if key == "match_block_trailing_comma" then (parseBool val).map OptValue.boolVal
  else if key == "match_wildcard_trailing_comma" then (parseBool val).map OptValue.boolVal
  else if key == "write_mode" then (WriteMode.parse val).map OptValue.writeModeVal
  else none

/-- Setting one named option, leaving every other option unchanged (the specification's description of a successful override). -/
def Config.setOption (self : Config) (key : String) (v : OptValue) : Config :=
  if key == "verbose" then
    match v with
    | OptValue.boolVal x => { self with verbose := x }
    | _ => self
  else if key == "skip_children" then
    match v with
    | OptValue.boolVal x => { self with skip_children := x }
    | _ => self
  else if key == "max_width" then
    match v with
    | OptValue.natVal x => { self with max_width := x }
    | _ => self
  else if key == "ideal_width" then
    match v with
    | OptValue.natVal x => { self with ideal_width := x }
    | _ => self
  else if key == "tab_spaces" then
    match v with
    | OptValue.natVal x => { self with tab_spaces := x }
    | _ => self
  else if key == "fn_call_width" then
    match v with
    | OptValue.natVal x => { self with fn_call_width := x }
    | _ => self
  else if key == "struct_lit_width" then
    match v with
    | OptValue.natVal x => { self with struct_lit_width := x }
    | _ => self
  else if key == "force_explicit_abi" then
    match v with
    | OptValue.boolVal x => { self with force_explicit_abi := x }
    | _ => self
  else if key == "newline_style" then
    match v with
    | OptValue.newlineStyleVal x => { self with newline_style := x }
    | _ => self
  else if key == "fn_brace_style" then
    match v with
    | OptValue.braceStyleVal x => { self with fn_brace_style := x }
    | _ => self
  else if key == "item_brace_style" then
    match v with
    | OptValue.braceStyleVal x => { self with item_brace_style := x }
    | _ => self
  else if key == "else_if_brace_style" then
    match v with
    | OptValue.elseIfBraceStyleVal x => { self with else_if_brace_style := x }
    | _ => self
  else if key == "control_brace_style" then
    match v with
    | OptValue.controlBraceStyleVal x => { self with control_brace_style := x }
    | _ => self
  else if key == "impl_empty_single_line" then
    match v with
    | OptValue.boolVal x => { self with impl_empty_single_line := x }
    | _ => self
  else if key == "fn_empty_single_line" then
    match v with
    | OptValue.boolVal x => { self with fn_empty_single_line := x }
    | _ => self
  else if key == "fn_single_line" then
    match v with
    | OptValue.boolVal x => { self with fn_single_line := x }
    | _ => self
  else if key == "fn_return_indent" then
    match v with
    | OptValue.returnIndentVal x => { self with fn_return_indent := x }
    | _ => self
  else if key == "fn_args_paren_newline" then
    match v with
    | OptValue.boolVal x => { self with fn_args_paren_newline := x }
    | _ => self
  else if key == "fn_args_density" then
    match v with
    | OptValue.densityVal x => { self with fn_args_density := x }
    | _ => self
  else if key == "fn_args_layout" then
    match v with
    | OptValue.fnArgLayoutStyleVal x => { self with fn_args_layout := x }
    | _ => self
  else if key == "fn_arg_indent" then
    match v with
    | OptValue.blockIndentStyleVal x => { self with fn_arg_indent := x }
    | _ => self
  else if key == "type_punctuation_density" then
    match v with
    | OptValue.typeDensityVal x => { self with type_punctuation_density := x }
    | _ => self
  else if key == "where_density" then
    match v with
    | OptValue.densityVal x => { self with where_density := x }
    | _ => self
  else if key == "where_indent" then
    match v with
    | OptValue.blockIndentStyleVal x => { self with where_indent := x }
    | _ => self
  else if key == "where_layout" then
    match v with
    | OptValue.listTacticVal x => { self with where_layout := x }
    | _ => self
  else if key == "where_pred_indent" then
    match v with
    | OptValue.blockIndentStyleVal x => { self with where_pred_indent := x }
    | _ => self
  else if key == "where_trailing_comma" then
    match v with
    | OptValue.boolVal x => { self with where_trailing_comma := x }
    | _ => self
  else if key == "generics_indent" then
    match v with
    | OptValue.blockIndentStyleVal x => { self with generics_indent := x }
    | _ => self
  else if key == "struct_trailing_comma" then
    match v with
    | OptValue.separatorTacticVal x => { self with struct_trailing_comma := x }
    | _ => self
  else if key == "struct_lit_trailing_comma" then
    match v with
    | OptValue.separatorTacticVal x => { self with struct_lit_trailing_comma := x }
    | _ => self
  else if key == "struct_lit_style" then
    match v with
    | OptValue.structLitStyleVal x => { self with struct_lit_style := x }
    | _ => self
  else if key == "struct_lit_multiline_style" then
    match v with
    | OptValue.multilineStyleVal x => { self with struct_lit_multiline_style := x }
    | _ => self
  else if key == "enum_trailing_comma" then
    match v with
    | OptValue.boolVal x => { self with enum_trailing_comma := x }
    | _ => self
  else if key == "report_todo" then
    match v with
    | OptValue.reportTacticVal x => { self with report_todo := x }
    | _ => self
  else if key == "report_fixme" then
    match v with
    | OptValue.reportTacticVal x => { self with report_fixme := x }
    | _ => self
  else if key == "chain_base_indent" then
    match v with
    | OptValue.blockIndentStyleVal x => { self with chain_base_indent := x }
    | _ => self
  else if key == "chain_indent" then
    match v with
    | OptValue.blockIndentStyleVal x => { self with chain_indent := x }
    | _ => self
  else if key == "reorder_imports" then
    match v with
    | OptValue.boolVal x => { self with reorder_imports := x }
    | _ => self
  else if key == "single_line_if_else" then
    match v with
    | OptValue.boolVal x => { self with single_line_if_else := x }
    | _ => self
  else if key == "format_strings" then
    match v with
    | OptValue.boolVal x => { self with format_strings := x }
    | _ => self
  else if key == "force_format_strings" then
    match v with
    | OptValue.boolVal x => { self with force_format_strings := x }
    | _ => self
  else if key == "chains_overflow_last" then
    match v with
    | OptValue.boolVal x => { self with chains_overflow_last := x }
    | _ => self
  else if key == "take_source_hints" then
    match v with
    | OptValue.boolVal x => { self with take_source_hints := x }
    | _ => self
  else if key == "hard_tabs" then
    match v with
    | OptValue.boolVal x => { self with hard_tabs := x }
    | _ => self
  else if key == "wrap_comments" then
    match v with
    | OptValue.boolVal x => { self with wrap_comments := x }
    | _ => self
  else if key == "normalise_comments" then
    match v with
    | OptValue.boolVal x => { self with normalise_comments := x }
    | _ => self
  else if key == "wrap_match_arms" then
    match v with
    | OptValue.boolVal x => { self with wrap_match_arms := x }
    | _ => self
  else if key == "match_block_trailing_comma" then
    match v with
    | OptValue.boolVal x => { self with match_block_trailing_comma := x }
    | _ => self
  else if key == "match_wildcard_trailing_comma" then
    match v with
    | OptValue.boolVal x => { self with match_wildcard_trailing_comma := x }
    | _ => self
  else if key == "write_mode" then
    match v with
    | OptValue.writeModeVal x => { self with write_mode := x }
    | _ => self
  else self

/-- `Density::to_list_tactic` (config.rs lines 114-123). -/
def Density.to_list_tactic : Density → ListTactic
  | Density.Compressed => ListTactic.Mixed
  | Density.Tall => ListTactic.HorizontalVertical
  | Density.CompressedIfEmpty => ListTactic.HorizontalVertical
  | Density.Vertical => ListTactic.Vertical

/-- `MultilineStyle::to_list_tactic` (config.rs lines 141-148). -/
def MultilineStyle.to_list_tactic : MultilineStyle → ListTactic
  | MultilineStyle.PreferSingle => ListTactic.HorizontalVertical
  | MultilineStyle.ForceMulti => ListTactic.Vertical


/-- A TOML scalar value, as far as the configuration schema needs: booleans, unsigned decimal integers and strings. -/
inductive TomlValue where
  | boolVal (b : Bool)
  | intVal (n : Nat)
  | strVal (s : String)
deriving DecidableEq

/-- Modelled from the spec: one scalar value of the key/value configuration document of section 6 (the `toml` crate used by `Config::from_toml` is an external collaborator): a boolean literal, a run of decimal digits, or a double-quoted string; anything else is malformed. -/
def parseTomlValue (s : String) : Option TomlValue :=
  match parseBool s with
  | some b => some (TomlValue.boolVal b)
  | none =>
    let cs := s.toList
    if cs.length != 0 && cs.all Char.isDigit then
      some (TomlValue.intVal (digitsToNat cs))
    else if cs.length ≥ 2 && strStartsWith s "\"" && strEndsWith s "\"" then
      some (TomlValue.strVal (strDropRight (strDrop s 1) 1))
    else none

/-- Modelled from the spec: one line of the configuration document.  `some none` is a blank or comment line, `some (some kv)` a key/value binding, `none` a malformed line. -/
def parseTomlLine (line : String) : Option (Option (String × TomlValue)) :=
  let t := strTrim line
  if t = "" then some none
  else if strStartsWith t "#" then some none
  else
    match splitString '=' t with
    | [k, v] =>
      let key := strTrim k
      if key.length != 0 && key.toList.all (fun c => c.isAlphanum || c == '_') then
        match parseTomlValue (strTrim v) with
        | some tv => some (some (key, tv))
        | none => none
      else none
    | _ => none

/-- Modelled from the spec: the external TOML parse of a whole document into key/value bindings; `none` when any line is malformed. -/
def parseTomlDoc (text : String) : Option (List (String × TomlValue)) :=
  (splitString '\n' text).foldr
    (fun line acc =>
      match acc, parseTomlLine line with
      | some kvs, some (some kv) => some (kv :: kvs)
      | some kvs, some none => some kvs
      | _, _ => none)
    (some [])

def lookupToml (kvs : List (String × TomlValue)) (key : String) : Option TomlValue :=
  (kvs.find? (fun kv => kv.fst == key)).map (fun kv => kv.snd)

/-- The option names of the static schema, in declaration order. -/
def knownConfigKeys : List String :=
  ["verbose", "skip_children", "max_width", "ideal_width",
  "tab_spaces", "fn_call_width", "struct_lit_width", "force_explicit_abi",
  "newline_style", "fn_brace_style", "item_brace_style", "else_if_brace_style",
  "control_brace_style", "impl_empty_single_line", "fn_empty_single_line", "fn_single_line",
  "fn_return_indent", "fn_args_paren_newline", "fn_args_density", "fn_args_layout",
  "fn_arg_indent", "type_punctuation_density", "where_density", "where_indent",
  "where_layout", "where_pred_indent", "where_trailing_comma", "generics_indent",
  "struct_trailing_comma", "struct_lit_trailing_comma", "struct_lit_style", "struct_lit_multiline_style",
  "enum_trailing_comma", "report_todo", "report_fixme", "chain_base_indent",
  "chain_indent", "reorder_imports", "single_line_if_else", "format_strings",
  "force_format_strings", "chains_overflow_last", "take_source_hints", "hard_tabs",
  "wrap_comments", "normalise_comments", "wrap_match_arms", "match_block_trailing_comma",
  "match_wildcard_trailing_comma", "write_mode"]

def tomlBoolValue (kvs : List (String × TomlValue)) (key : String) : Option Bool :=
  match lookupToml kvs key with
  | some (TomlValue.boolVal b) => some b
  | _ => none

def tomlNatValue (kvs : List (String × TomlValue)) (key : String) : Option Nat :=
  match lookupToml kvs key with
  | some (TomlValue.intVal n) => some n
  | _ => none

def tomlEnumValue (parse : String → Option α) (kvs : List (String × TomlValue))
    (key : String) : Option α :=
  match lookupToml kvs key with
  | some (TomlValue.strVal s) => parse s
  | _ => none

/-- Whether one key/value binding is admissible for the static schema: the key is a known option and the value has that option's declared type (an enum value must be a string naming a variant).  An unknown key is inadmissible, which section 6 makes a hard error. -/
def tomlFieldWellTyped (kv : String × TomlValue) : Bool :=
  match kv.fst with
  | "verbose" => (match kv.snd with | TomlValue.boolVal _ => true | _ => false)
  | "skip_children" => (match kv.snd with | TomlValue.boolVal _ => true | _ => false)
  | "max_width" => (match kv.snd with | TomlValue.intVal _ => true | _ => false)
  | "ideal_width" => (match kv.snd with | TomlValue.intVal _ => true | _ => false)
  | "tab_spaces" => (match kv.snd with | TomlValue.intVal _ => true | _ => false)
  | "fn_call_width" => (match kv.snd with | TomlValue.intVal _ => true | _ => false)
  | "struct_lit_width" => (match kv.snd with | TomlValue.intVal _ => true | _ => false)
  | "force_explicit_abi" => (match kv.snd with | TomlValue.boolVal _ => true | _ => false)
  | "newline_style" => (match kv.snd with | TomlValue.strVal s => (NewlineStyle.parse s).isSome | _ => false)
  | "fn_brace_style" => (match kv.snd with | TomlValue.strVal s => (BraceStyle.parse s).isSome | _ => false)
  | "item_brace_style" => (match kv.snd with | TomlValue.strVal s => (BraceStyle.parse s).isSome | _ => false)
  | "else_if_brace_style" => (match kv.snd with | TomlValue.strVal s => (ElseIfBraceStyle.parse s).isSome | _ => false)
  | "control_brace_style" => (match kv.snd with | TomlValue.strVal s => (ControlBraceStyle.parse s).isSome | _ => false)
  | "impl_empty_single_line" => (match kv.snd with | TomlValue.boolVal _ => true | _ => false)
  | "fn_empty_single_line" => (match kv.snd with | TomlValue.boolVal _ => true | _ => false)
  | "fn_single_line" => (match kv.snd with | TomlValue.boolVal _ => true | _ => false)
  | "fn_return_indent" => (match kv.snd with | TomlValue.strVal s => (ReturnIndent.parse s).isSome | _ => false)
  | "fn_args_paren_newline" => (match kv.snd with | TomlValue.boolVal _ => true | _ => false)
  | "fn_args_density" => (match kv.snd with | TomlValue.strVal s => (Density.parse s).isSome | _ => false)
  | "fn_args_layout" => (match kv.snd with | TomlValue.strVal s => (FnArgLayoutStyle.parse s).isSome | _ => false)
  | "fn_arg_indent" => (match kv.snd with | TomlValue.strVal s => (BlockIndentStyle.parse s).isSome | _ => false)
  | "type_punctuation_density" => (match kv.snd with | TomlValue.strVal s => (TypeDensity.parse s).isSome | _ => false)
  | "where_density" => (match kv.snd with | TomlValue.strVal s => (Density.parse s).isSome | _ => false)
  | "where_indent" => (match kv.snd with | TomlValue.strVal s => (BlockIndentStyle.parse s).isSome | _ => false)
  | "where_layout" => (match kv.snd with | TomlValue.strVal s => (ListTactic.parse s).isSome | _ => false)
  | "where_pred_indent" => (match kv.snd with | TomlValue.strVal s => (BlockIndentStyle.parse s).isSome | _ => false)
  | "where_trailing_comma" => (match kv.snd with | TomlValue.boolVal _ => true | _ => false)
  | "generics_indent" => (match kv.snd with | TomlValue.strVal s => (BlockIndentStyle.parse s).isSome | _ => false)
  | "struct_trailing_comma" => (match kv.snd with | TomlValue.strVal s => (SeparatorTactic.parse s).isSome | _ => false)
  | "struct_lit_trailing_comma" => (match kv.snd with | TomlValue.strVal s => (SeparatorTactic.parse s).isSome | _ => false)
  | "struct_lit_style" => (match kv.snd with | TomlValue.strVal s => (StructLitStyle.parse s).isSome | _ => false)
  | "struct_lit_multiline_style" => (match kv.snd with | TomlValue.strVal s => (MultilineStyle.parse s).isSome | _ => false)
  | "enum_trailing_comma" => (match kv.snd with | TomlValue.boolVal _ => true | _ => false)
  | "report_todo" => (match kv.snd with | TomlValue.strVal s => (ReportTactic.parse s).isSome | _ => false)
  | "report_fixme" => (match kv.snd with | TomlValue.strVal s => (ReportTactic.parse s).isSome | _ => false)
  | "chain_base_indent" => (match kv.snd with | TomlValue.strVal s => (BlockIndentStyle.parse s).isSome | _ => false)
  | "chain_indent" => (match kv.snd with | TomlValue.strVal s => (BlockIndentStyle.parse s).isSome | _ => false)
  | "reorder_imports" => (match kv.snd with | TomlValue.boolVal _ => true | _ => false)
  | "single_line_if_else" => (match kv.snd with | TomlValue.boolVal _ => true | _ => false)
  | "format_strings" => (match kv.snd with | TomlValue.boolVal _ => true | _ => false)
  | "force_format_strings" => (match kv.snd with | TomlValue.boolVal _ => true | _ => false)
  | "chains_overflow_last" => (match kv.snd with | TomlValue.boolVal _ => true | _ => false)
  | "take_source_hints" => (match kv.snd with | TomlValue.boolVal _ => true | _ => false)
  | "hard_tabs" => (match kv.snd with | TomlValue.boolVal _ => true | _ => false)
  | "wrap_comments" => (match kv.snd with | TomlValue.boolVal _ => true | _ => false)
  | "normalise_comments" => (match kv.snd with | TomlValue.boolVal _ => true | _ => false)
  | "wrap_match_arms" => (match kv.snd with | TomlValue.boolVal _ => true | _ => false)
  | "match_block_trailing_comma" => (match kv.snd with | TomlValue.boolVal _ => true | _ => false)
  | "match_wildcard_trailing_comma" => (match kv.snd with | TomlValue.boolVal _ => true | _ => false)
  | "write_mode" => (match kv.snd with | TomlValue.strVal s => (WriteMode.parse s).isSome | _ => false)
  | _ => false

/-- Modelled from the spec: decoding the parsed key/value bindings into a `ParsedConfig` (`toml::decode` at config.rs line 285).  The decode succeeds exactly when every binding is admissible (section 6 makes an unknown key a hard error, and a mistyped or unrecognized value fails the decode), and then each option that the document binds is `some`. -/
def decodeParsedConfig (kvs : List (String × TomlValue)) : Option ParsedConfig :=
  if kvs.all tomlFieldWellTyped then
    some {
      verbose := tomlBoolValue kvs "verbose",
      skip_children := tomlBoolValue kvs "skip_children",
      max_width := tomlNatValue kvs "max_width",
      ideal_width := tomlNatValue kvs "ideal_width",
      tab_spaces := tomlNatValue kvs "tab_spaces",
      fn_call_width := tomlNatValue kvs "fn_call_width",
      struct_lit_width := tomlNatValue kvs "struct_lit_width",
      force_explicit_abi := tomlBoolValue kvs "force_explicit_abi",
      newline_style := tomlEnumValue NewlineStyle.parse kvs "newline_style",
      fn_brace_style := tomlEnumValue BraceStyle.parse kvs "fn_brace_style",
      item_brace_style := tomlEnumValue BraceStyle.parse kvs "item_brace_style",
      else_if_brace_style := tomlEnumValue ElseIfBraceStyle.parse kvs "else_if_brace_style",
      control_brace_style := tomlEnumValue ControlBraceStyle.parse kvs "control_brace_style",
      impl_empty_single_line := tomlBoolValue kvs "impl_empty_single_line",
      fn_empty_single_line := tomlBoolValue kvs "fn_empty_single_line",
      fn_single_line := tomlBoolValue kvs "fn_single_line",
      fn_return_indent := tomlEnumValue ReturnIndent.parse kvs "fn_return_indent",
      fn_args_paren_newline := tomlBoolValue kvs "fn_args_paren_newline",
      fn_args_density := tomlEnumValue Density.parse kvs "fn_args_density",
      fn_args_layout := tomlEnumValue FnArgLayoutStyle.parse kvs "fn_args_layout",
      fn_arg_indent := tomlEnumValue BlockIndentStyle.parse kvs "fn_arg_indent",
      type_punctuation_density := tomlEnumValue TypeDensity.parse kvs "type_punctuation_density",
      where_density := tomlEnumValue Density.parse kvs "where_density",
      where_indent := tomlEnumValue BlockIndentStyle.parse kvs "where_indent",
      where_layout := tomlEnumValue ListTactic.parse kvs "where_layout",
      where_pred_indent := tomlEnumValue BlockIndentStyle.parse kvs "where_pred_indent",
      where_trailing_comma := tomlBoolValue kvs "where_trailing_comma",
      generics_indent := tomlEnumValue BlockIndentStyle.parse kvs "generics_indent",
      struct_trailing_comma := tomlEnumValue SeparatorTactic.parse kvs "struct_trailing_comma",
      struct_lit_trailing_comma := tomlEnumValue SeparatorTactic.parse kvs "struct_lit_trailing_comma",
      struct_lit_style := tomlEnumValue StructLitStyle.parse kvs "struct_lit_style",
      struct_lit_multiline_style := tomlEnumValue MultilineStyle.parse kvs "struct_lit_multiline_style",
      enum_trailing_comma := tomlBoolValue kvs "enum_trailing_comma",
      report_todo := tomlEnumValue ReportTactic.parse kvs "report_todo",
      report_fixme := tomlEnumValue ReportTactic.parse kvs "report_fixme",
      chain_base_indent := tomlEnumValue BlockIndentStyle.parse kvs "chain_base_indent",
      chain_indent := tomlEnumValue BlockIndentStyle.parse kvs "chain_indent",
      reorder_imports := tomlBoolValue kvs "reorder_imports",
      single_line_if_else := tomlBoolValue kvs "single_line_if_else",
      format_strings := tomlBoolValue kvs "format_strings",
      force_format_strings := tomlBoolValue kvs "force_format_strings",
      chains_overflow_last := tomlBoolValue kvs "chains_overflow_last",
      take_source_hints := tomlBoolValue kvs "take_source_hints",
      hard_tabs := tomlBoolValue kvs "hard_tabs",
      wrap_comments := tomlBoolValue kvs "wrap_comments",
      normalise_comments := tomlBoolValue kvs "normalise_comments",
      wrap_match_arms := tomlBoolValue kvs "wrap_match_arms",
      match_block_trailing_comma := tomlBoolValue kvs "match_block_trailing_comma",
      match_wildcard_trailing_comma := tomlBoolValue kvs "match_wildcard_trailing_comma",
      write_mode := tomlEnumValue WriteMode.parse kvs "write_mode"
    }
  else none


/-- Outcome of `Config::from_toml` (config.rs lines 283-295).  `ok` when the TOML parse and the decode both succeed; `panicked` models the `expect`/`panic!` aborts taken when the document is malformed or cannot be decoded.  `configParseError` is the error result the specification describes; no code path returns it. -/
inductive FromTomlOutcome where
  | ok (c : Config)
  | configParseError
  | panicked
deriving DecidableEq

/-- `Config::from_toml` (config.rs lines 283-295): parse, decode, then fill a default configuration from the decoded partial table; each failure path panics. -/
def Config.from_toml (toml : String) : FromTomlOutcome :=
  match parseTomlDoc toml with
  | none => FromTomlOutcome.panicked
  | some parsed =>
    match decodeParsedConfig parsed with
    | none => FromTomlOutcome.panicked
    | some parsed_config =>
      FromTomlOutcome.ok (Config.default.fill_from_parsed_config parsed_config)

/-- `ConfigDoc` (config.rs lines 245-252): controls whether an option is printed in the docs. -/
inductive ConfigDoc where
  | Doc
  | NoDoc
deriving DecidableEq

/-- One row of the `create_config!` table: the doc flag, the option name, `doc_hint()` of the declared type, the `Debug` form of the declared default, and the doc strings. -/
structure ConfigOptionEntry where
  doc : ConfigDoc
  name : String
  hint : String
  defaultStr : String
  doc_strings : List String
deriving DecidableEq

/-- The `create_config!` invocation (config.rs lines 356-427), row by row, in declaration order. -/
def configOptionTable : List ConfigOptionEntry :=
  [⟨ConfigDoc.Doc, "verbose", boolDocHint, boolDebugStr false, ["Use verbose output"]⟩,
   ⟨ConfigDoc.Doc, "skip_children", boolDocHint, boolDebugStr false, ["Don't reformat out of line modules"]⟩,
   ⟨ConfigDoc.Doc, "max_width", usizeDocHint, toString (100 : Nat), ["Maximum width of each line"]⟩,
   ⟨ConfigDoc.Doc, "ideal_width", usizeDocHint, toString (80 : Nat), ["Ideal width of each line"]⟩,
   ⟨ConfigDoc.Doc, "tab_spaces", usizeDocHint, toString (4 : Nat), ["Number of spaces per tab"]⟩,
   ⟨ConfigDoc.Doc, "fn_call_width", usizeDocHint, toString (60 : Nat), ["Maximum width of the args of a function call before falling back to vertical formatting"]⟩,
   ⟨ConfigDoc.Doc, "struct_lit_width", usizeDocHint, toString (16 : Nat), ["Maximum width in the body of a struct lit before falling back to vertical formatting"]⟩,
   ⟨ConfigDoc.Doc, "force_explicit_abi", boolDocHint, boolDebugStr true, ["Always print the abi for extern items"]⟩,
   ⟨ConfigDoc.Doc, "newline_style", NewlineStyle.doc_hint, NewlineStyle.debugStr NewlineStyle.Unix, ["Unix or Windows line endings"]⟩,
   ⟨ConfigDoc.Doc, "fn_brace_style", BraceStyle.doc_hint, BraceStyle.debugStr BraceStyle.SameLineWhere, ["Brace style for functions"]⟩,
   ⟨ConfigDoc.Doc, "item_brace_style", BraceStyle.doc_hint, BraceStyle.debugStr BraceStyle.SameLineWhere, ["Brace style for structs and enums"]⟩,
   ⟨ConfigDoc.Doc, "else_if_brace_style", ElseIfBraceStyle.doc_hint, ElseIfBraceStyle.debugStr ElseIfBraceStyle.AlwaysSameLine, ["Brace style for if, else if, and else constructs"]⟩,
   ⟨ConfigDoc.Doc, "control_brace_style", ControlBraceStyle.doc_hint, ControlBraceStyle.debugStr ControlBraceStyle.AlwaysSameLine, ["Brace style for match, loop, for, and while constructs"]⟩,
   ⟨ConfigDoc.Doc, "impl_empty_single_line", boolDocHint, boolDebugStr true, ["Put empty-body implementations on a single line"]⟩,
   ⟨ConfigDoc.Doc, "fn_empty_single_line", boolDocHint, boolDebugStr true, ["Put empty-body functions on a single line"]⟩,
   ⟨ConfigDoc.Doc, "fn_single_line", boolDocHint, boolDebugStr false, ["Put single-expression functions on a single line"]⟩,
   ⟨ConfigDoc.Doc, "fn_return_indent", ReturnIndent.doc_hint, ReturnIndent.debugStr ReturnIndent.WithArgs, ["Location of return type in function declaration"]⟩,
   ⟨ConfigDoc.Doc, "fn_args_paren_newline", boolDocHint, boolDebugStr true, ["If function argument parenthesis goes on a newline"]⟩,
   ⟨ConfigDoc.Doc, "fn_args_density", Density.doc_hint, Density.debugStr Density.Tall, ["Argument density in functions"]⟩,
   ⟨ConfigDoc.Doc, "fn_args_layout", FnArgLayoutStyle.doc_hint, FnArgLayoutStyle.debugStr FnArgLayoutStyle.Visual, ["Layout of function arguments"]⟩,
   ⟨ConfigDoc.Doc, "fn_arg_indent", BlockIndentStyle.doc_hint, BlockIndentStyle.debugStr BlockIndentStyle.Visual, ["Indent on function arguments"]⟩,
   ⟨ConfigDoc.Doc, "type_punctuation_density", TypeDensity.doc_hint, TypeDensity.debugStr TypeDensity.Wide, ["Determines if '+' or '=' are wrapped in spaces in the punctuation of types"]⟩,
   ⟨ConfigDoc.Doc, "where_density", Density.doc_hint, Density.debugStr Density.CompressedIfEmpty, ["Density of a where clause"]⟩,
   ⟨ConfigDoc.Doc, "where_indent", BlockIndentStyle.doc_hint, BlockIndentStyle.debugStr BlockIndentStyle.Tabbed, ["Indentation of a where clause"]⟩,
   ⟨ConfigDoc.Doc, "where_layout", ListTactic.doc_hint, ListTactic.debugStr ListTactic.Vertical, ["Element layout inside a where clause"]⟩,
   ⟨ConfigDoc.Doc, "where_pred_indent", BlockIndentStyle.doc_hint, BlockIndentStyle.debugStr BlockIndentStyle.Visual, ["Indentation style of a where predicate"]⟩,
   ⟨ConfigDoc.Doc, "where_trailing_comma", boolDocHint, boolDebugStr false, ["Put a trailing comma on where clauses"]⟩,
   ⟨ConfigDoc.Doc, "generics_indent", BlockIndentStyle.doc_hint, BlockIndentStyle.debugStr BlockIndentStyle.Visual, ["Indentation of generics"]⟩,
   ⟨ConfigDoc.Doc, "struct_trailing_comma", SeparatorTactic.doc_hint, SeparatorTactic.debugStr SeparatorTactic.Vertical, ["If there is a trailing comma on structs"]⟩,
   ⟨ConfigDoc.Doc, "struct_lit_trailing_comma", SeparatorTactic.doc_hint, SeparatorTactic.debugStr SeparatorTactic.Vertical, ["If there is a trailing comma on literal structs"]⟩,
   ⟨ConfigDoc.Doc, "struct_lit_style", StructLitStyle.doc_hint, StructLitStyle.debugStr StructLitStyle.Block, ["Style of struct definition"]⟩,
   ⟨ConfigDoc.Doc, "struct_lit_multiline_style", MultilineStyle.doc_hint, MultilineStyle.debugStr MultilineStyle.PreferSingle, ["Multiline style on literal structs"]⟩,
   ⟨ConfigDoc.Doc, "enum_trailing_comma", boolDocHint, boolDebugStr true, ["Put a trailing comma on enum declarations"]⟩,
   ⟨ConfigDoc.Doc, "report_todo", ReportTactic.doc_hint, ReportTactic.debugStr ReportTactic.Never, ["Report all, none or unnumbered occurrences of TODO in source file comments"]⟩,
   ⟨ConfigDoc.Doc, "report_fixme", ReportTactic.doc_hint, ReportTactic.debugStr ReportTactic.Never, ["Report all, none or unnumbered occurrences of FIXME in source file comments"]⟩,
   ⟨ConfigDoc.Doc, "chain_base_indent", BlockIndentStyle.doc_hint, BlockIndentStyle.debugStr BlockIndentStyle.Visual, ["Indent on chain base"]⟩,
   ⟨ConfigDoc.Doc, "chain_indent", BlockIndentStyle.doc_hint, BlockIndentStyle.debugStr BlockIndentStyle.Visual, ["Indentation of chain"]⟩,
   ⟨ConfigDoc.Doc, "reorder_imports", boolDocHint, boolDebugStr false, ["Reorder import statements alphabetically"]⟩,
   ⟨ConfigDoc.Doc, "single_line_if_else", boolDocHint, boolDebugStr false, ["Put else on same line as closing brace for if statements"]⟩,
   ⟨ConfigDoc.Doc, "format_strings", boolDocHint, boolDebugStr true, ["Format string literals where necessary"]⟩,
   ⟨ConfigDoc.Doc, "force_format_strings", boolDocHint, boolDebugStr false, ["Always format string literals"]⟩,
   ⟨ConfigDoc.Doc, "chains_overflow_last", boolDocHint, boolDebugStr true, ["Allow last call in method chain to break the line"]⟩,
   ⟨ConfigDoc.Doc, "take_source_hints", boolDocHint, boolDebugStr true, ["Retain some formatting characteristics from the source code"]⟩,
   ⟨ConfigDoc.Doc, "hard_tabs", boolDocHint, boolDebugStr false, ["Use tab characters for indentation, spaces for alignment"]⟩,
   ⟨ConfigDoc.Doc, "wrap_comments", boolDocHint, boolDebugStr false, ["Break comments to fit on the line"]⟩,
   ⟨ConfigDoc.Doc, "normalise_comments", boolDocHint, boolDebugStr true, ["Convert /* */ comments to // comments where possible"]⟩,
   ⟨ConfigDoc.Doc, "wrap_match_arms", boolDocHint, boolDebugStr true, ["Wrap multiline match arms in blocks"]⟩,
   ⟨ConfigDoc.Doc, "match_block_trailing_comma", boolDocHint, boolDebugStr false, ["Put a trailing comma after a block based match arm (non-block arms are not affected)"]⟩,
   ⟨ConfigDoc.Doc, "match_wildcard_trailing_comma", boolDocHint, boolDebugStr true, ["Put a trailing comma after a wildcard arm"]⟩,
   ⟨ConfigDoc.Doc, "write_mode", WriteMode.doc_hint, WriteMode.debugStr WriteMode.Replace, ["What Write Mode to use when none is supplied: Replace, Overwrite, Display, Diff, Coverage"]⟩]

/-- `Config::print_docs` (config.rs lines 312-340), as the list of lines it prints: the padding width `max` is the longest option name plus one, `space_str` is `max` spaces, and each documented row prints a padded header line with the doc hint and `Default: ` plus the `Debug` form of the default, then its doc strings indented by `space_str`, then a blank line, all after the `Configuration Options:` heading. -/
def Config.print_docs : List String :=
  let max := configOptionTable.foldl (fun m e => Nat.max m (e.name.length + 1)) 0
  let space_str := String.mk (List.replicate max ' ')
  configOptionTable.foldl
    (fun acc e =>
      match e.doc with
      | ConfigDoc.Doc =>
        let name_out :=
          String.mk (List.replicate (max - 1 - e.name.length) ' ') ++ e.name ++ " "
        acc ++ [name_out ++ e.hint ++ " Default: " ++ e.defaultStr]
          ++ e.doc_strings.map (fun d => space_str ++ d) ++ [""]
      | ConfigDoc.NoDoc => acc)
    ["Configuration Options:"]

def isDocumented (e : ConfigOptionEntry) : Bool :=
  match e.doc with
  | ConfigDoc.Doc => true
  | ConfigDoc.NoDoc => false

/-- The padding width `print_docs` computes: the longest option name plus one. -/
def maxOptionNameWidth : Nat :=
  configOptionTable.foldl (fun m e => Nat.max m (e.name.length + 1)) 0

/-- The lines `print_docs` devotes to one documented option, per the specification: its (padded) name, its expected value kind, its default, then its human description lines, then a separating blank line. -/
def docEntryBlock (pad : Nat) (e : ConfigOptionEntry) : List String :=
  (String.mk (List.replicate (pad - 1 - e.name.length) ' ') ++ e.name ++ " " ++ e.hint
      ++ " Default: " ++ e.defaultStr)
    :: e.doc_strings.map (fun d => String.mk (List.replicate pad ' ') ++ d) ++ [""]

/-- The output shape the specification ascribes to `print_docs`: a heading, then one block per documented option, in declaration order. -/
def printDocsSpec : List String :=
  "Configuration Options:"
    :: ((configOptionTable.filter isDocumented).map (docEntryBlock maxOptionNameWidth)).flatten

/-- A single `use` item: whether it is globally qualified (leading `::`), its plain path segments, and an optional trailing brace group of simple items. -/
structure UseTree where
  global : Bool
  path : List String
  group : Option (List String)
deriving DecidableEq

/-- Modelled from the spec: reading one `use ...;` line into a `UseTree` (the parser is the external front end).  The item may start with `::`, its segments are separated by `::`, and a final `\x7b...\x7d` segment is a brace group whose items are separated by `, `. -/
def parseUseItem (line : String) : Option UseTree :=
  if strStartsWith line "use " && strEndsWith line ";" then
    let body := strDropRight (strDrop line 4) 1
    let global := strStartsWith body "::"
    let rest := if global then strDrop body 2 else body
    let segs := ((splitChar ':' rest.toList).filter (fun seg => seg.length != 0)).map String.mk
    match segs.reverse with
    | [] => none
    | last :: revInit =>
      if strStartsWith last "\x7b" && strEndsWith last "\x7d" then
        some { global := global, path := revInit.reverse,
               group := some ((splitChar ',' (strDropRight (strDrop last 1) 1).toList).map
                 (fun cs => String.mk (cs.dropWhile Char.isWhitespace))) }
      else some { global := global, path := revInit.reverse ++ [last], group := none }
  else none

/-- Modelled from the spec: the import normalization of section 4.4 and Scenario A, as far as src/ shows it (imports.rs is not under src/): the leading `::` is stripped, and a single-item brace group is collapsed into a plain path segment. -/
def normalizeUseTree (t : UseTree) : UseTree :=
  let t := { t with global := false }
  match t.group with
  | some [single] => { t with path := t.path ++ [single], group := none }
  | _ => t

/-- Rendering a `UseTree` back to source text. -/
def renderUseTree (t : UseTree) : String :=
  "use " ++ (cond t.global "::" "") ++ joinSep "::" t.path
    ++ (match t.group with
        | none => ""
        | some items =>
          (cond t.path.isEmpty "" "::") ++ "\x7b" ++ joinSep ", " items ++ "\x7d")
    ++ ";"


theorem emit_diagnostic_of_ignorable_fresh (self : SilentOnIgnoredFilesEmitter)
    (db : Diagnostic)
    (h : isIgnorableDiagnostic self.ignore_path_set self.source_map db = true)
    (hh : self.has_non_ignorable_parser_errors = false) :
    self.emit_diagnostic db = { self with can_reset := true } := by
  unfold isIgnorableDiagnostic at h
  cases hs : db.primary_span with
  | none => rw [hs] at h; simp at h
  | some s =>
    simp only [hs] at h
    cases hf : self.source_map s with
    | Other => simp only [hf] at h; simp at h
    | Real path =>
      simp only [hf] at h
      simp [SilentOnIgnoredFilesEmitter.emit_diagnostic, hs, hf, h, hh]

theorem emit_diagnostic_of_ignorable_latched (self : SilentOnIgnoredFilesEmitter)
    (db : Diagnostic)
    (h : isIgnorableDiagnostic self.ignore_path_set self.source_map db = true)
    (hh : self.has_non_ignorable_parser_errors = true) :
    self.emit_diagnostic db = self := by
  unfold isIgnorableDiagnostic at h
  cases hs : db.primary_span with
  | none => rw [hs] at h; simp at h
  | some s =>
    simp only [hs] at h
    cases hf : self.source_map s with
    | Other => simp only [hf] at h; simp at h
    | Real path =>
      simp only [hf] at h
      simp [SilentOnIgnoredFilesEmitter.emit_diagnostic, hs, hf, h, hh]

theorem emit_diagnostic_of_nonignorable (self : SilentOnIgnoredFilesEmitter) (db : Diagnostic)
    (h : isIgnorableDiagnostic self.ignore_path_set self.source_map db = false) :
    self.emit_diagnostic db =
      { self with
          has_non_ignorable_parser_errors := true
          can_reset := false
          emitted := self.emitted ++ [db] } := by
  unfold isIgnorableDiagnostic at h
  cases hs : db.primary_span with
  | none =>
    simp [SilentOnIgnoredFilesEmitter.emit_diagnostic, hs]
  | some s =>
    simp only [hs] at h
    cases hf : self.source_map s with
    | Other =>
      simp [SilentOnIgnoredFilesEmitter.emit_diagnostic, hs, hf]
    | Real path =>
      simp only [hf] at h
      simp [SilentOnIgnoredFilesEmitter.emit_diagnostic, hs, hf, h]

theorem emitAll_ignore_path_set (self : SilentOnIgnoredFilesEmitter) (ds : List Diagnostic) :
    (self.emitAll ds).ignore_path_set = self.ignore_path_set := by
  induction ds generalizing self with
  | nil => rfl
  | cons d ds ih =>
    show ((self.emit_diagnostic d).emitAll ds).ignore_path_set = _
    rw [ih]
    cases h : isIgnorableDiagnostic self.ignore_path_set self.source_map d with
    | true =>
      cases hh : self.has_non_ignorable_parser_errors with
      | false => rw [emit_diagnostic_of_ignorable_fresh self d h hh]
      | true => rw [emit_diagnostic_of_ignorable_latched self d h hh]
    | false => rw [emit_diagnostic_of_nonignorable self d h]

theorem emitAll_source_map (self : SilentOnIgnoredFilesEmitter) (ds : List Diagnostic) :
    (self.emitAll ds).source_map = self.source_map := by
  induction ds generalizing self with
  | nil => rfl
  | cons d ds ih =>
    show ((self.emit_diagnostic d).emitAll ds).source_map = _
    rw [ih]
    cases h : isIgnorableDiagnostic self.ignore_path_set self.source_map d with
    | true =>
      cases hh : self.has_non_ignorable_parser_errors with
      | false => rw [emit_diagnostic_of_ignorable_fresh self d h hh]
      | true => rw [emit_diagnostic_of_ignorable_latched self d h hh]
    | false => rw [emit_diagnostic_of_nonignorable self d h]

theorem emitAll_has_non_ignorable (self : SilentOnIgnoredFilesEmitter) (ds : List Diagnostic) :
    (self.emitAll ds).has_non_ignorable_parser_errors =
      (self.has_non_ignorable_parser_errors ||
        ds.any fun d => !isIgnorableDiagnostic self.ignore_path_set self.source_map d) := by
  induction ds generalizing self with
  | nil => simp [SilentOnIgnoredFilesEmitter.emitAll]
  | cons d ds ih =>
    show ((self.emit_diagnostic d).emitAll ds).has_non_ignorable_parser_errors = _
    cases h : isIgnorableDiagnostic self.ignore_path_set self.source_map d with
    | true =>
      cases hh : self.has_non_ignorable_parser_errors with
      | false => rw [emit_diagnostic_of_ignorable_fresh self d h hh, ih]; simp [h, hh]
      | true => rw [emit_diagnostic_of_ignorable_latched self d h hh, ih]; simp [h, hh]
    | false =>
      rw [emit_diagnostic_of_nonignorable self d h, ih]
      simp [h]

theorem emitAll_emitted (self : SilentOnIgnoredFilesEmitter) (ds : List Diagnostic) :
    (self.emitAll ds).emitted =
      self.emitted ++
        ds.filter fun d => !isIgnorableDiagnostic self.ignore_path_set self.source_map d := by
  induction ds generalizing self with
  | nil => simp [SilentOnIgnoredFilesEmitter.emitAll]
  | cons d ds ih =>
    show ((self.emit_diagnostic d).emitAll ds).emitted = _
    cases h : isIgnorableDiagnostic self.ignore_path_set self.source_map d with
    | true =>
      cases hh : self.has_non_ignorable_parser_errors with
      | false =>
        rw [emit_diagnostic_of_ignorable_fresh self d h hh, ih]
        simp [List.filter_cons, h]
      | true =>
        rw [emit_diagnostic_of_ignorable_latched self d h hh, ih]
        simp [List.filter_cons, h]
    | false =>
      rw [emit_diagnostic_of_nonignorable self d h, ih]
      simp [List.filter_cons, h]

theorem emitAll_can_reset (self : SilentOnIgnoredFilesEmitter) (ds : List Diagnostic) :
    (self.emitAll ds).can_reset =
      cond (ds.any fun d => !isIgnorableDiagnostic self.ignore_path_set self.source_map d)
        false
        (cond self.has_non_ignorable_parser_errors self.can_reset
          (self.can_reset || !ds.isEmpty)) := by
  induction ds generalizing self with
  | nil =>
    simp [SilentOnIgnoredFilesEmitter.emitAll]
  | cons d ds ih =>
    show ((self.emit_diagnostic d).emitAll ds).can_reset = _
    cases h : isIgnorableDiagnostic self.ignore_path_set self.source_map d with
    | true =>
      cases hh : self.has_non_ignorable_parser_errors with
      | false =>
        rw [emit_diagnostic_of_ignorable_fresh self d h hh, ih]
        simp only [List.any_cons, h, Bool.not_true, Bool.false_or, List.isEmpty_cons, hh]
        cases hds : ds.any fun d =>
            !isIgnorableDiagnostic self.ignore_path_set self.source_map d <;>
          simp
      | true =>
        rw [emit_diagnostic_of_ignorable_latched self d h hh, ih]
        simp only [List.any_cons, h, Bool.not_true, Bool.false_or, List.isEmpty_cons, hh]
        cases hds : ds.any fun d =>
            !isIgnorableDiagnostic self.ignore_path_set self.source_map d <;>
          simp
    | false =>
      rw [emit_diagnostic_of_nonignorable self d h, ih]
      simp only [List.any_cons, h, Bool.not_false, Bool.true_or, List.isEmpty_cons]
      cases hds : ds.any fun d =>
          !isIgnorableDiagnostic self.ignore_path_set self.source_map d <;>
        simp

theorem fillStep_verbose_getD (c : Config) (o : Option Bool) :
    c.fillStep_verbose o = { c with verbose := o.getD c.verbose } := by
  cases o <;> rfl

theorem fillStep_skip_children_getD (c : Config) (o : Option Bool) :
    c.fillStep_skip_children o = { c with skip_children := o.getD c.skip_children } := by
  cases o <;> rfl

theorem fillStep_max_width_getD (c : Config) (o : Option Nat) :
    c.fillStep_max_width o = { c with max_width := o.getD c.max_width } := by
  cases o <;> rfl

theorem fillStep_ideal_width_getD (c : Config) (o : Option Nat) :
    c.fillStep_ideal_width o = { c with ideal_width := o.getD c.ideal_width } := by
  cases o <;> rfl

theorem fillStep_tab_spaces_getD (c : Config) (o : Option Nat) :
    c.fillStep_tab_spaces o = { c with tab_spaces := o.getD c.tab_spaces } := by
  cases o <;> rfl

theorem fillStep_fn_call_width_getD (c : Config) (o : Option Nat) :
    c.fillStep_fn_call_width o = { c with fn_call_width := o.getD c.fn_call_width } := by
  cases o <;> rfl

theorem fillStep_struct_lit_width_getD (c : Config) (o : Option Nat) :
    c.fillStep_struct_lit_width o = { c with struct_lit_width := o.getD c.struct_lit_width } := by
  cases o <;> rfl

theorem fillStep_force_explicit_abi_getD (c : Config) (o : Option Bool) :
    c.fillStep_force_explicit_abi o = { c with force_explicit_abi := o.getD c.force_explicit_abi } := by
  cases o <;> rfl

theorem fillStep_newline_style_getD (c : Config) (o : Option NewlineStyle) :
    c.fillStep_newline_style o = { c with newline_style := o.getD c.newline_style } := by
  cases o <;> rfl

theorem fillStep_fn_brace_style_getD (c : Config) (o : Option BraceStyle) :
    c.fillStep_fn_brace_style o = { c with fn_brace_style := o.getD c.fn_brace_style } := by
  cases o <;> rfl

theorem fillStep_item_brace_style_getD (c : Config) (o : Option BraceStyle) :
    c.fillStep_item_brace_style o = { c with item_brace_style := o.getD c.item_brace_style } := by
  cases o <;> rfl

theorem fillStep_else_if_brace_style_getD (c : Config) (o : Option ElseIfBraceStyle) :
    c.fillStep_else_if_brace_style o = { c with else_if_brace_style := o.getD c.else_if_brace_style } := by
  cases o <;> rfl

theorem fillStep_control_brace_style_getD (c : Config) (o : Option ControlBraceStyle) :
    c.fillStep_control_brace_style o = { c with control_brace_style := o.getD c.control_brace_style } := by
  cases o <;> rfl

theorem fillStep_impl_empty_single_line_getD (c : Config) (o : Option Bool) :
    c.fillStep_impl_empty_single_line o = { c with impl_empty_single_line := o.getD c.impl_empty_single_line } := by
  cases o <;> rfl

theorem fillStep_fn_empty_single_line_getD (c : Config) (o : Option Bool) :
    c.fillStep_fn_empty_single_line o = { c with fn_empty_single_line := o.getD c.fn_empty_single_line } := by
  cases o <;> rfl

theorem fillStep_fn_single_line_getD (c : Config) (o : Option Bool) :
    c.fillStep_fn_single_line o = { c with fn_single_line := o.getD c.fn_single_line } := by
  cases o <;> rfl

theorem fillStep_fn_return_indent_getD (c : Config) (o : Option ReturnIndent) :
    c.fillStep_fn_return_indent o = { c with fn_return_indent := o.getD c.fn_return_indent } := by
  cases o <;> rfl

theorem fillStep_fn_args_paren_newline_getD (c : Config) (o : Option Bool) :
    c.fillStep_fn_args_paren_newline o = { c with fn_args_paren_newline := o.getD c.fn_args_paren_newline } := by
  cases o <;> rfl

theorem fillStep_fn_args_density_getD (c : Config) (o : Option Density) :
    c.fillStep_fn_args_density o = { c with fn_args_density := o.getD c.fn_args_density } := by
  cases o <;> rfl

theorem fillStep_fn_args_layout_getD (c : Config) (o : Option FnArgLayoutStyle) :
    c.fillStep_fn_args_layout o = { c with fn_args_layout := o.getD c.fn_args_layout } := by
  cases o <;> rfl

theorem fillStep_fn_arg_indent_getD (c : Config) (o : Option BlockIndentStyle) :
    c.fillStep_fn_arg_indent o = { c with fn_arg_indent := o.getD c.fn_arg_indent } := by
  cases o <;> rfl

theorem fillStep_type_punctuation_density_getD (c : Config) (o : Option TypeDensity) :
    c.fillStep_type_punctuation_density o = { c with type_punctuation_density := o.getD c.type_punctuation_density } := by
  cases o <;> rfl

theorem fillStep_where_density_getD (c : Config) (o : Option Density) :
    c.fillStep_where_density o = { c with where_density := o.getD c.where_density } := by
  cases o <;> rfl

theorem fillStep_where_indent_getD (c : Config) (o : Option BlockIndentStyle) :
    c.fillStep_where_indent o = { c with where_indent := o.getD c.where_indent } := by
  cases o <;> rfl

theorem fillStep_where_layout_getD (c : Config) (o : Option ListTactic) :
    c.fillStep_where_layout o = { c with where_layout := o.getD c.where_layout } := by
  cases o <;> rfl

theorem fillStep_where_pred_indent_getD (c : Config) (o : Option BlockIndentStyle) :
    c.fillStep_where_pred_indent o = { c with where_pred_indent := o.getD c.where_pred_indent } := by
  cases o <;> rfl

theorem fillStep_where_trailing_comma_getD (c : Config) (o : Option Bool) :
    c.fillStep_where_trailing_comma o = { c with where_trailing_comma := o.getD c.where_trailing_comma } := by
  cases o <;> rfl

theorem fillStep_generics_indent_getD (c : Config) (o : Option BlockIndentStyle) :
    c.fillStep_generics_indent o = { c with generics_indent := o.getD c.generics_indent } := by
  cases o <;> rfl

theorem fillStep_struct_trailing_comma_getD (c : Config) (o : Option SeparatorTactic) :
    c.fillStep_struct_trailing_comma o = { c with struct_trailing_comma := o.getD c.struct_trailing_comma } := by
  cases o <;> rfl

theorem fillStep_struct_lit_trailing_comma_getD (c : Config) (o : Option SeparatorTactic) :
    c.fillStep_struct_lit_trailing_comma o = { c with struct_lit_trailing_comma := o.getD c.struct_lit_trailing_comma } := by
  cases o <;> rfl

theorem fillStep_struct_lit_style_getD (c : Config) (o : Option StructLitStyle) :
    c.fillStep_struct_lit_style o = { c with struct_lit_style := o.getD c.struct_lit_style } := by
  cases o <;> rfl

theorem fillStep_struct_lit_multiline_style_getD (c : Config) (o : Option MultilineStyle) :
    c.fillStep_struct_lit_multiline_style o = { c with struct_lit_multiline_style := o.getD c.struct_lit_multiline_style } := by
  cases o <;> rfl

theorem fillStep_enum_trailing_comma_getD (c : Config) (o : Option Bool) :
    c.fillStep_enum_trailing_comma o = { c with enum_trailing_comma := o.getD c.enum_trailing_comma } := by
  cases o <;> rfl

theorem fillStep_report_todo_getD (c : Config) (o : Option ReportTactic) :
    c.fillStep_report_todo o = { c with report_todo := o.getD c.report_todo } := by
  cases o <;> rfl

theorem fillStep_report_fixme_getD (c : Config) (o : Option ReportTactic) :
    c.fillStep_report_fixme o = { c with report_fixme := o.getD c.report_fixme } := by
  cases o <;> rfl

theorem fillStep_chain_base_indent_getD (c : Config) (o : Option BlockIndentStyle) :
    c.fillStep_chain_base_indent o = { c with chain_base_indent := o.getD c.chain_base_indent } := by
  cases o <;> rfl

theorem fillStep_chain_indent_getD (c : Config) (o : Option BlockIndentStyle) :
    c.fillStep_chain_indent o = { c with chain_indent := o.getD c.chain_indent } := by
  cases o <;> rfl

theorem fillStep_reorder_imports_getD (c : Config) (o : Option Bool) :
    c.fillStep_reorder_imports o = { c with reorder_imports := o.getD c.reorder_imports } := by
  cases o <;> rfl

theorem fillStep_single_line_if_else_getD (c : Config) (o : Option Bool) :
    c.fillStep_single_line_if_else o = { c with single_line_if_else := o.getD c.single_line_if_else } := by
  cases o <;> rfl

theorem fillStep_format_strings_getD (c : Config) (o : Option Bool) :
    c.fillStep_format_strings o = { c with format_strings := o.getD c.format_strings } := by
  cases o <;> rfl

theorem fillStep_force_format_strings_getD (c : Config) (o : Option Bool) :
    c.fillStep_force_format_strings o = { c with force_format_strings := o.getD c.force_format_strings } := by
  cases o <;> rfl

theorem fillStep_chains_overflow_last_getD (c : Config) (o : Option Bool) :
    c.fillStep_chains_overflow_last o = { c with chains_overflow_last := o.getD c.chains_overflow_last } := by
  cases o <;> rfl

theorem fillStep_take_source_hints_getD (c : Config) (o : Option Bool) :
    c.fillStep_take_source_hints o = { c with take_source_hints := o.getD c.take_source_hints } := by
  cases o <;> rfl

theorem fillStep_hard_tabs_getD (c : Config) (o : Option Bool) :
    c.fillStep_hard_tabs o = { c with hard_tabs := o.getD c.hard_tabs } := by
  cases o <;> rfl

theorem fillStep_wrap_comments_getD (c : Config) (o : Option Bool) :
    c.fillStep_wrap_comments o = { c with wrap_comments := o.getD c.wrap_comments } := by
  cases o <;> rfl

theorem fillStep_normalise_comments_getD (c : Config) (o : Option Bool) :
    c.fillStep_normalise_comments o = { c with normalise_comments := o.getD c.normalise_comments } := by
  cases o <;> rfl

theorem fillStep_wrap_match_arms_getD (c : Config) (o : Option Bool) :
    c.fillStep_wrap_match_arms o = { c with wrap_match_arms := o.getD c.wrap_match_arms } := by
  cases o <;> rfl

theorem fillStep_match_block_trailing_comma_getD (c : Config) (o : Option Bool) :
    c.fillStep_match_block_trailing_comma o = { c with match_block_trailing_comma := o.getD c.match_block_trailing_comma } := by
  cases o <;> rfl

theorem fillStep_match_wildcard_trailing_comma_getD (c : Config) (o : Option Bool) :
    c.fillStep_match_wildcard_trailing_comma o = { c with match_wildcard_trailing_comma := o.getD c.match_wildcard_trailing_comma } := by
  cases o <;> rfl

theorem fillStep_write_mode_getD (c : Config) (o : Option WriteMode) :
    c.fillStep_write_mode o = { c with write_mode := o.getD c.write_mode } := by
  cases o <;> rfl

theorem fill_from_parsed_config_eq (c : Config) (p : ParsedConfig) :
    c.fill_from_parsed_config p =
      {
        verbose := p.verbose.getD c.verbose,
        skip_children := p.skip_children.getD c.skip_children,
        max_width := p.max_width.getD c.max_width,
        ideal_width := p.ideal_width.getD c.ideal_width,
        tab_spaces := p.tab_spaces.getD c.tab_spaces,
        fn_call_width := p.fn_call_width.getD c.fn_call_width,
        struct_lit_width := p.struct_lit_width.getD c.struct_lit_width,
        force_explicit_abi := p.force_explicit_abi.getD c.force_explicit_abi,
        newline_style := p.newline_style.getD c.newline_style,
        fn_brace_style := p.fn_brace_style.getD c.fn_brace_style,
        item_brace_style := p.item_brace_style.getD c.item_brace_style,
        else_if_brace_style := p.else_if_brace_style.getD c.else_if_brace_style,
        control_brace_style := p.control_brace_style.getD c.control_brace_style,
        impl_empty_single_line := p.impl_empty_single_line.getD c.impl_empty_single_line,
        fn_empty_single_line := p.fn_empty_single_line.getD c.fn_empty_single_line,
        fn_single_line := p.fn_single_line.getD c.fn_single_line,
        fn_return_indent := p.fn_return_indent.getD c.fn_return_indent,
        fn_args_paren_newline := p.fn_args_paren_newline.getD c.fn_args_paren_newline,
        fn_args_density := p.fn_args_density.getD c.fn_args_density,
        fn_args_layout := p.fn_args_layout.getD c.fn_args_layout,
        fn_arg_indent := p.fn_arg_indent.getD c.fn_arg_indent,
        type_punctuation_density := p.type_punctuation_density.getD c.type_punctuation_density,
        where_density := p.where_density.getD c.where_density,
        where_indent := p.where_indent.getD c.where_indent,
        where_layout := p.where_layout.getD c.where_layout,
        where_pred_indent := p.where_pred_indent.getD c.where_pred_indent,
        where_trailing_comma := p.where_trailing_comma.getD c.where_trailing_comma,
        generics_indent := p.generics_indent.getD c.generics_indent,
        struct_trailing_comma := p.struct_trailing_comma.getD c.struct_trailing_comma,
        struct_lit_trailing_comma := p.struct_lit_trailing_comma.getD c.struct_lit_trailing_comma,
        struct_lit_style := p.struct_lit_style.getD c.struct_lit_style,
        struct_lit_multiline_style := p.struct_lit_multiline_style.getD c.struct_lit_multiline_style,
        enum_trailing_comma := p.enum_trailing_comma.getD c.enum_trailing_comma,
        report_todo := p.report_todo.getD c.report_todo,
        report_fixme := p.report_fixme.getD c.report_fixme,
        chain_base_indent := p.chain_base_indent.getD c.chain_base_indent,
        chain_indent := p.chain_indent.getD c.chain_indent,
        reorder_imports := p.reorder_imports.getD c.reorder_imports,
        single_line_if_else := p.single_line_if_else.getD c.single_line_if_else,
        format_strings := p.format_strings.getD c.format_strings,
        force_format_strings := p.force_format_strings.getD c.force_format_strings,
        chains_overflow_last := p.chains_overflow_last.getD c.chains_overflow_last,
        take_source_hints := p.take_source_hints.getD c.take_source_hints,
        hard_tabs := p.hard_tabs.getD c.hard_tabs,
        wrap_comments := p.wrap_comments.getD c.wrap_comments,
        normalise_comments := p.normalise_comments.getD c.normalise_comments,
        wrap_match_arms := p.wrap_match_arms.getD c.wrap_match_arms,
        match_block_trailing_comma := p.match_block_trailing_comma.getD c.match_block_trailing_comma,
        match_wildcard_trailing_comma := p.match_wildcard_trailing_comma.getD c.match_wildcard_trailing_comma,
        write_mode := p.write_mode.getD c.write_mode
      } := by
  simp only [Config.fill_from_parsed_config,
    fillStep_verbose_getD, fillStep_skip_children_getD, fillStep_max_width_getD,
    fillStep_ideal_width_getD, fillStep_tab_spaces_getD, fillStep_fn_call_width_getD,
    fillStep_struct_lit_width_getD, fillStep_force_explicit_abi_getD, fillStep_newline_style_getD,
    fillStep_fn_brace_style_getD, fillStep_item_brace_style_getD, fillStep_else_if_brace_style_getD,
    fillStep_control_brace_style_getD, fillStep_impl_empty_single_line_getD, fillStep_fn_empty_single_line_getD,
    fillStep_fn_single_line_getD, fillStep_fn_return_indent_getD, fillStep_fn_args_paren_newline_getD,
    fillStep_fn_args_density_getD, fillStep_fn_args_layout_getD, fillStep_fn_arg_indent_getD,
    fillStep_type_punctuation_density_getD, fillStep_where_density_getD, fillStep_where_indent_getD,
    fillStep_where_layout_getD, fillStep_where_pred_indent_getD, fillStep_where_trailing_comma_getD,
    fillStep_generics_indent_getD, fillStep_struct_trailing_comma_getD, fillStep_struct_lit_trailing_comma_getD,
    fillStep_struct_lit_style_getD, fillStep_struct_lit_multiline_style_getD, fillStep_enum_trailing_comma_getD,
    fillStep_report_todo_getD, fillStep_report_fixme_getD, fillStep_chain_base_indent_getD,
    fillStep_chain_indent_getD, fillStep_reorder_imports_getD, fillStep_single_line_if_else_getD,
    fillStep_format_strings_getD, fillStep_force_format_strings_getD, fillStep_chains_overflow_last_getD,
    fillStep_take_source_hints_getD, fillStep_hard_tabs_getD, fillStep_wrap_comments_getD,
    fillStep_normalise_comments_getD, fillStep_wrap_match_arms_getD, fillStep_match_block_trailing_comma_getD,
    fillStep_match_wildcard_trailing_comma_getD, fillStep_write_mode_getD]

/-- C5: `fill_from_parsed_config` merges a partial override table onto a
configuration: every option present (`some`) in the partial table replaces the
starting value, every absent (`none`) option keeps the starting value, and no
option is affected by any other option's entry. -/
theorem C5_fill_from_parsed_config_merges (c : Config) (p : ParsedConfig) :
    (c.fill_from_parsed_config p).verbose = p.verbose.getD c.verbose
    ∧ (c.fill_from_parsed_config p).skip_children = p.skip_children.getD c.skip_children
    ∧ (c.fill_from_parsed_config p).max_width = p.max_width.getD c.max_width
    ∧ (c.fill_from_parsed_config p).ideal_width = p.ideal_width.getD c.ideal_width
    ∧ (c.fill_from_parsed_config p).tab_spaces = p.tab_spaces.getD c.tab_spaces
    ∧ (c.fill_from_parsed_config p).fn_call_width = p.fn_call_width.getD c.fn_call_width
    ∧ (c.fill_from_parsed_config p).struct_lit_width = p.struct_lit_width.getD c.struct_lit_width
    ∧ (c.fill_from_parsed_config p).force_explicit_abi = p.force_explicit_abi.getD c.force_explicit_abi
    ∧ (c.fill_from_parsed_config p).newline_style = p.newline_style.getD c.newline_style
    ∧ (c.fill_from_parsed_config p).fn_brace_style = p.fn_brace_style.getD c.fn_brace_style
    ∧ (c.fill_from_parsed_config p).item_brace_style = p.item_brace_style.getD c.item_brace_style
    ∧ (c.fill_from_parsed_config p).else_if_brace_style = p.else_if_brace_style.getD c.else_if_brace_style
    ∧ (c.fill_from_parsed_config p).control_brace_style = p.control_brace_style.getD c.control_brace_style
    ∧ (c.fill_from_parsed_config p).impl_empty_single_line = p.impl_empty_single_line.getD c.impl_empty_single_line
    ∧ (c.fill_from_parsed_config p).fn_empty_single_line = p.fn_empty_single_line.getD c.fn_empty_single_line
    ∧ (c.fill_from_parsed_config p).fn_single_line = p.fn_single_line.getD c.fn_single_line
    ∧ (c.fill_from_parsed_config p).fn_return_indent = p.fn_return_indent.getD c.fn_return_indent
    ∧ (c.fill_from_parsed_config p).fn_args_paren_newline = p.fn_args_paren_newline.getD c.fn_args_paren_newline
    ∧ (c.fill_from_parsed_config p).fn_args_density = p.fn_args_density.getD c.fn_args_density
    ∧ (c.fill_from_parsed_config p).fn_args_layout = p.fn_args_layout.getD c.fn_args_layout
    ∧ (c.fill_from_parsed_config p).fn_arg_indent = p.fn_arg_indent.getD c.fn_arg_indent
    ∧ (c.fill_from_parsed_config p).type_punctuation_density = p.type_punctuation_density.getD c.type_punctuation_density
    ∧ (c.fill_from_parsed_config p).where_density = p.where_density.getD c.where_density
    ∧ (c.fill_from_parsed_config p).where_indent = p.where_indent.getD c.where_indent
    ∧ (c.fill_from_parsed_config p).where_layout = p.where_layout.getD c.where_layout
    ∧ (c.fill_from_parsed_config p).where_pred_indent = p.where_pred_indent.getD c.where_pred_indent
    ∧ (c.fill_from_parsed_config p).where_trailing_comma = p.where_trailing_comma.getD c.where_trailing_comma
    ∧ (c.fill_from_parsed_config p).generics_indent = p.generics_indent.getD c.generics_indent
    ∧ (c.fill_from_parsed_config p).struct_trailing_comma = p.struct_trailing_comma.getD c.struct_trailing_comma
    ∧ (c.fill_from_parsed_config p).struct_lit_trailing_comma = p.struct_lit_trailing_comma.getD c.struct_lit_trailing_comma
    ∧ (c.fill_from_parsed_config p).struct_lit_style = p.struct_lit_style.getD c.struct_lit_style
    ∧ (c.fill_from_parsed_config p).struct_lit_multiline_style = p.struct_lit_multiline_style.getD c.struct_lit_multiline_style
    ∧ (c.fill_from_parsed_config p).enum_trailing_comma = p.enum_trailing_comma.getD c.enum_trailing_comma
    ∧ (c.fill_from_parsed_config p).report_todo = p.report_todo.getD c.report_todo
    ∧ (c.fill_from_parsed_config p).report_fixme = p.report_fixme.getD c.report_fixme
    ∧ (c.fill_from_parsed_config p).chain_base_indent = p.chain_base_indent.getD c.chain_base_indent
    ∧ (c.fill_from_parsed_config p).chain_indent = p.chain_indent.getD c.chain_indent
    ∧ (c.fill_from_parsed_config p).reorder_imports = p.reorder_imports.getD c.reorder_imports
    ∧ (c.fill_from_parsed_config p).single_line_if_else = p.single_line_if_else.getD c.single_line_if_else
    ∧ (c.fill_from_parsed_config p).format_strings = p.format_strings.getD c.format_strings
    ∧ (c.fill_from_parsed_config p).force_format_strings = p.force_format_strings.getD c.force_format_strings
    ∧ (c.fill_from_parsed_config p).chains_overflow_last = p.chains_overflow_last.getD c.chains_overflow_last
    ∧ (c.fill_from_parsed_config p).take_source_hints = p.take_source_hints.getD c.take_source_hints
    ∧ (c.fill_from_parsed_config p).hard_tabs = p.hard_tabs.getD c.hard_tabs
    ∧ (c.fill_from_parsed_config p).wrap_comments = p.wrap_comments.getD c.wrap_comments
    ∧ (c.fill_from_parsed_config p).normalise_comments = p.normalise_comments.getD c.normalise_comments
    ∧ (c.fill_from_parsed_config p).wrap_match_arms = p.wrap_match_arms.getD c.wrap_match_arms
    ∧ (c.fill_from_parsed_config p).match_block_trailing_comma = p.match_block_trailing_comma.getD c.match_block_trailing_comma
    ∧ (c.fill_from_parsed_config p).match_wildcard_trailing_comma = p.match_wildcard_trailing_comma.getD c.match_wildcard_trailing_comma
    ∧ (c.fill_from_parsed_config p).write_mode = p.write_mode.getD c.write_mode
    := by
  rw [fill_from_parsed_config_eq]
  exact ⟨rfl, rfl, rfl, rfl, rfl, rfl, rfl, rfl, rfl, rfl, rfl, rfl, rfl, rfl, rfl, rfl, rfl, rfl, rfl, rfl, rfl, rfl, rfl, rfl, rfl, rfl, rfl, rfl, rfl, rfl, rfl, rfl, rfl, rfl, rfl, rfl, rfl, rfl, rfl, rfl, rfl, rfl, rfl, rfl, rfl, rfl, rfl, rfl, rfl, rfl⟩

/-- C3 counterexample: `override_value` on an unparsable value does not fail
with an `InvalidOverride` error value, it panics (config.rs line 302's
`expect`): overriding `verbose` with `maybe` aborts. -/
theorem C3_override_value_counterexample :
    Config.default.override_value "verbose" "maybe" = OverrideOutcome.panicked
    ∧ Config.default.override_value "verbose" "maybe" ≠ OverrideOutcome.invalidOverride := by
  exact ⟨rfl, by decide⟩

/-- C3 (amended): for every key and value string, `override_value` parses the
value at the key's statically known type — boolean accepted exactly for true
or false, unsigned integer via decimal digits, enum via exact case-sensitive
variant name — and it panics (rather than returning an error value) whenever
the value string does not parse at that type or the key is not in the static
schema; on success only the named option changes. -/
theorem C3_override_value_panics (c : Config) (key val : String) :
    c.override_value key val =
      (match parseOverrideAt key val with
        | some v => OverrideOutcome.ok (c.setOption key v)
        | none => OverrideOutcome.panicked) := by
  by_cases h1 : key = "verbose"
  · subst h1
    cases hp : parseBool val <;>
      simp [Config.override_value, parseOverrideAt, Config.setOption, hp]
  by_cases h2 : key = "skip_children"
  · subst h2
    cases hp : parseBool val <;>
      simp [Config.override_value, parseOverrideAt, Config.setOption, hp]
  by_cases h3 : key = "max_width"
  · subst h3
    cases hp : parseUsize val <;>
      simp [Config.override_value, parseOverrideAt, Config.setOption, hp]
  by_cases h4 : key = "ideal_width"
  · subst h4
    cases hp : parseUsize val <;>
      simp [Config.override_value, parseOverrideAt, Config.setOption, hp]
  by_cases h5 : key = "tab_spaces"
  · subst h5
    cases hp : parseUsize val <;>
      simp [Config.override_value, parseOverrideAt, Config.setOption, hp]
  by_cases h6 : key = "fn_call_width"
  · subst h6
    cases hp : parseUsize val <;>
      simp [Config.override_value, parseOverrideAt, Config.setOption, hp]
  by_cases h7 : key = "struct_lit_width"
  · subst h7
    cases hp : parseUsize val <;>
      simp [Config.override_value, parseOverrideAt, Config.setOption, hp]
  by_cases h8 : key = "force_explicit_abi"
  · subst h8
    cases hp : parseBool val <;>
      simp [Config.override_value, parseOverrideAt, Config.setOption, hp]
  by_cases h9 : key = "newline_style"
  · subst h9
    cases hp : NewlineStyle.parse val <;>
      simp [Config.override_value, parseOverrideAt, Config.setOption, hp]
  by_cases h10 : key = "fn_brace_style"
  · subst h10
    cases hp : BraceStyle.parse val <;>
      simp [Config.override_value, parseOverrideAt, Config.setOption, hp]
  by_cases h11 : key = "item_brace_style"
  · subst h11
    cases hp : BraceStyle.parse val <;>
      simp [Config.override_value, parseOverrideAt, Config.setOption, hp]
  by_cases h12 : key = "else_if_brace_style"
  · subst h12
    cases hp : ElseIfBraceStyle.parse val <;>
      simp [Config.override_value, parseOverrideAt, Config.setOption, hp]
  by_cases h13 : key = "control_brace_style"
  · subst h13
    cases hp : ControlBraceStyle.parse val <;>
      simp [Config.override_value, parseOverrideAt, Config.setOption, hp]
  by_cases h14 : key = "impl_empty_single_line"
  · subst h14
    cases hp : parseBool val <;>
      simp [Config.override_value, parseOverrideAt, Config.setOption, hp]
  by_cases h15 : key = "fn_empty_single_line"
  · subst h15
    cases hp : parseBool val <;>
      simp [Config.override_value, parseOverrideAt, Config.setOption, hp]
  by_cases h16 : key = "fn_single_line"
  · subst h16
    cases hp : parseBool val <;>
      simp [Config.override_value, parseOverrideAt, Config.setOption, hp]
  by_cases h17 : key = "fn_return_indent"
  · subst h17
    cases hp : ReturnIndent.parse val <;>
      simp [Config.override_value, parseOverrideAt, Config.setOption, hp]
  by_cases h18 : key = "fn_args_paren_newline"
  · subst h18
    cases hp : parseBool val <;>
      simp [Config.override_value, parseOverrideAt, Config.setOption, hp]
  by_cases h19 : key = "fn_args_density"
  · subst h19
    cases hp : Density.parse val <;>
      simp [Config.override_value, parseOverrideAt, Config.setOption, hp]
  by_cases h20 : key = "fn_args_layout"
  · subst h20
    cases hp : FnArgLayoutStyle.parse val <;>
      simp [Config.override_value, parseOverrideAt, Config.setOption, hp]
  by_cases h21 : key = "fn_arg_indent"
  · subst h21
    cases hp : BlockIndentStyle.parse val <;>
      simp [Config.override_value, parseOverrideAt, Config.setOption, hp]
  by_cases h22 : key = "type_punctuation_density"
  · subst h22
    cases hp : TypeDensity.parse val <;>
      simp [Config.override_value, parseOverrideAt, Config.setOption, hp]
  by_cases h23 : key = "where_density"
  · subst h23
    cases hp : Density.parse val <;>
      simp [Config.override_value, parseOverrideAt, Config.setOption, hp]
  by_cases h24 : key = "where_indent"
  · subst h24
    cases hp : BlockIndentStyle.parse val <;>
      simp [Config.override_value, parseOverrideAt, Config.setOption, hp]
  by_cases h25 : key = "where_layout"
  · subst h25
    cases hp : ListTactic.parse val <;>
      simp [Config.override_value, parseOverrideAt, Config.setOption, hp]
  by_cases h26 : key = "where_pred_indent"
  · subst h26
    cases hp : BlockIndentStyle.parse val <;>
      simp [Config.override_value, parseOverrideAt, Config.setOption, hp]
  by_cases h27 : key = "where_trailing_comma"
  · subst h27
    cases hp : parseBool val <;>
      simp [Config.override_value, parseOverrideAt, Config.setOption, hp]
  by_cases h28 : key = "generics_indent"
  · subst h28
    cases hp : BlockIndentStyle.parse val <;>
      simp [Config.override_value, parseOverrideAt, Config.setOption, hp]
  by_cases h29 : key = "struct_trailing_comma"
  · subst h29
    cases hp : SeparatorTactic.parse val <;>
      simp [Config.override_value, parseOverrideAt, Config.setOption, hp]
  by_cases h30 : key = "struct_lit_trailing_comma"
  · subst h30
    cases hp : SeparatorTactic.parse val <;>
      simp [Config.override_value, parseOverrideAt, Config.setOption, hp]
  by_cases h31 : key = "struct_lit_style"
  · subst h31
    cases hp : StructLitStyle.parse val <;>
      simp [Config.override_value, parseOverrideAt, Config.setOption, hp]
  by_cases h32 : key = "struct_lit_multiline_style"
  · subst h32
    cases hp : MultilineStyle.parse val <;>
      simp [Config.override_value, parseOverrideAt, Config.setOption, hp]
  by_cases h33 : key = "enum_trailing_comma"
  · subst h33
    cases hp : parseBool val <;>
      simp [Config.override_value, parseOverrideAt, Config.setOption, hp]
  by_cases h34 : key = "report_todo"
  · subst h34
    cases hp : ReportTactic.parse val <;>
      simp [Config.override_value, parseOverrideAt, Config.setOption, hp]
  by_cases h35 : key = "report_fixme"
  · subst h35
    cases hp : ReportTactic.parse val <;>
      simp [Config.override_value, parseOverrideAt, Config.setOption, hp]
  by_cases h36 : key = "chain_base_indent"
  · subst h36
    cases hp : BlockIndentStyle.parse val <;>
      simp [Config.override_value, parseOverrideAt, Config.setOption, hp]
  by_cases h37 : key = "chain_indent"
  · subst h37
    cases hp : BlockIndentStyle.parse val <;>
      simp [Config.override_value, parseOverrideAt, Config.setOption, hp]
  by_cases h38 : key = "reorder_imports"
  · subst h38
    cases hp : parseBool val <;>
      simp [Config.override_value, parseOverrideAt, Config.setOption, hp]
  by_cases h39 : key = "single_line_if_else"
  · subst h39
    cases hp : parseBool val <;>
      simp [Config.override_value, parseOverrideAt, Config.setOption, hp]
  by_cases h40 : key = "format_strings"
  · subst h40
    cases hp : parseBool val <;>
      simp [Config.override_value, parseOverrideAt, Config.setOption, hp]
  by_cases h41 : key = "force_format_strings"
  · subst h41
    cases hp : parseBool val <;>
      simp [Config.override_value, parseOverrideAt, Config.setOption, hp]
  by_cases h42 : key = "chains_overflow_last"
  · subst h42
    cases hp : parseBool val <;>
      simp [Config.override_value, parseOverrideAt, Config.setOption, hp]
  by_cases h43 : key = "take_source_hints"
  · subst h43
    cases hp : parseBool val <;>
      simp [Config.override_value, parseOverrideAt, Config.setOption, hp]
  by_cases h44 : key = "hard_tabs"
  · subst h44
    cases hp : parseBool val <;>
      simp [Config.override_value, parseOverrideAt, Config.setOption, hp]
  by_cases h45 : key = "wrap_comments"
  · subst h45
    cases hp : parseBool val <;>
      simp [Config.override_value, parseOverrideAt, Config.setOption, hp]
  by_cases h46 : key = "normalise_comments"
  · subst h46
    cases hp : parseBool val <;>
      simp [Config.override_value, parseOverrideAt, Config.setOption, hp]
  by_cases h47 : key = "wrap_match_arms"
  · subst h47
    cases hp : parseBool val <;>
      simp [Config.override_value, parseOverrideAt, Config.setOption, hp]
  by_cases h48 : key = "match_block_trailing_comma"
  · subst h48
    cases hp : parseBool val <;>
      simp [Config.override_value, parseOverrideAt, Config.setOption, hp]
  by_cases h49 : key = "match_wildcard_trailing_comma"
  · subst h49
    cases hp : parseBool val <;>
      simp [Config.override_value, parseOverrideAt, Config.setOption, hp]
  by_cases h50 : key = "write_mode"
  · subst h50
    cases hp : WriteMode.parse val <;>
      simp [Config.override_value, parseOverrideAt, Config.setOption, hp]
  unfold Config.override_value parseOverrideAt
  simp [h1, h2, h3, h4, h5, h6, h7, h8, h9, h10, h11, h12, h13, h14, h15, h16, h17, h18, h19, h20, h21, h22, h23, h24, h25, h26, h27, h28, h29, h30, h31, h32, h33, h34, h35, h36, h37, h38, h39, h40, h41, h42, h43, h44, h45, h46, h47, h48, h49, h50]

/-- C1: for a Diagnostic Session constructed with the Default emission policy,
`can_reset_errors` is true after a sequence of received diagnostics exactly
when at least one diagnostic had its primary location in an ignored file and
none was classified non-ignorable; the flag starts false at construction, and
once a non-ignorable diagnostic arrives it is false in every later state of
the session (a one-way latch). -/
theorem C1_can_reset_errors_latch (ign : String → Bool) (sm : Span → FileName) :
    ParseSess.can_reset_errors (ParseSess.newDefault ign sm) = false
    ∧ (∀ ds : List Diagnostic,
        ParseSess.can_reset_errors ((ParseSess.newDefault ign sm).emitAll ds) = true
          ↔ (∃ d ∈ ds, isIgnorableDiagnostic ign sm d = true)
            ∧ ∀ d ∈ ds, isIgnorableDiagnostic ign sm d = true)
    ∧ ∀ (ds₁ : List Diagnostic) (d : Diagnostic) (ds₂ : List Diagnostic),
        isIgnorableDiagnostic ign sm d = false →
        ParseSess.can_reset_errors
          ((ParseSess.newDefault ign sm).emitAll (ds₁ ++ d :: ds₂)) = false := by
  refine ⟨rfl, fun ds => ?_, fun ds₁ d ds₂ hd => ?_⟩
  · show ((ParseSess.newDefault ign sm).emitAll ds).can_reset = true ↔ _
    rw [emitAll_can_reset]
    simp only [ParseSess.newDefault, Bool.cond_false, Bool.false_or]
    cases hany : ds.any (fun d => !isIgnorableDiagnostic ign sm d) with
    | true =>
      simp only [Bool.cond_true]
      constructor
      · intro hfalse; exact absurd hfalse (by simp)
      · rintro ⟨-, hall⟩
        obtain ⟨d0, hd0, hneg⟩ := List.any_eq_true.mp hany
        have := hall d0 hd0
        simp [this] at hneg
    | false =>
      simp only [Bool.cond_false]
      have hall : ∀ d ∈ ds, isIgnorableDiagnostic ign sm d = true := by
        intro d hdm
        have h0 := List.any_eq_false.mp hany d hdm
        simpa using h0
      constructor
      · intro hne
        cases ds with
        | nil => simp at hne
        | cons d0 rest =>
          exact ⟨⟨d0, by simp, hall d0 (by simp)⟩, hall⟩
      · rintro ⟨⟨d0, hd0, -⟩, -⟩
        cases ds with
        | nil => exact absurd hd0 (by simp)
        | cons _ _ => simp
  · show ((ParseSess.newDefault ign sm).emitAll (ds₁ ++ d :: ds₂)).can_reset = false
    rw [emitAll_can_reset]
    have hany : ((ds₁ ++ d :: ds₂).any fun x => !isIgnorableDiagnostic ign sm x) = true :=
      List.any_eq_true.mpr ⟨d, by simp, by simp [hd]⟩
    simp only [ParseSess.newDefault] at hany ⊢
    simp [hany]

/-- C1 witness: the latch component of the theorem at a concrete session: a
span-less diagnostic between two ignored-file diagnostics leaves the flag
false. -/
theorem C1_can_reset_errors_latch_witness :
    ParseSess.can_reset_errors
        ((ParseSess.newDefault (fun p => p == "ig.rs") (fun _ => FileName.Real "ig.rs")).emitAll
          ([{ primary_span := some 0, message := "a" }] ++
            { primary_span := none, message := "b" } ::
              [{ primary_span := some 1, message := "c" }])) = false :=
  (C1_can_reset_errors_latch (fun p => p == "ig.rs") (fun _ => FileName.Real "ig.rs")).2.2
    [{ primary_span := some 0, message := "a" }]
    { primary_span := none, message := "b" }
    [{ primary_span := some 1, message := "c" }] rfl

/-- C2: under the Default emission policy, every diagnostic whose primary
location is a real file matched by the ignore set is suppressed (never
forwarded to the sink), and every diagnostic whose primary location is a real
file not matched by the ignore set is forwarded to the sink. -/
theorem C2_default_policy_ignore_filtering (ign : String → Bool) (sm : Span → FileName)
    (ds : List Diagnostic) :
    (∀ d ∈ ds, isIgnorableDiagnostic ign sm d = true →
      d ∉ ((ParseSess.newDefault ign sm).emitAll ds).emitted)
    ∧ ∀ d ∈ ds, ∀ (s : Span) (path : String),
        d.primary_span = some s → sm s = FileName.Real path → ign path = false →
        d ∈ ((ParseSess.newDefault ign sm).emitAll ds).emitted := by
  constructor
  · intro d hdm hig
    rw [emitAll_emitted]
    simp only [ParseSess.newDefault]
    simp [List.mem_filter, hig]
  · intro d hdm s path hs hp hi
    have hig : isIgnorableDiagnostic ign sm d = false := by
      simp [isIgnorableDiagnostic, hs, hp, hi]
    rw [emitAll_emitted]
    simp only [ParseSess.newDefault]
    simp [List.mem_filter, hdm, hig]

/-- C2 witness: with span 0 resolving to the ignored file and span 1 to a
plain file, the first diagnostic never reaches the sink and the second does. -/
theorem C2_default_policy_ignore_filtering_witness :
    ({ primary_span := some 0, message := "i" } : Diagnostic) ∉
        ((ParseSess.newDefault (fun p => p == "ig.rs")
            (fun s => if s == 0 then FileName.Real "ig.rs" else FileName.Real "main.rs")).emitAll
          [{ primary_span := some 0, message := "i" },
            { primary_span := some 1, message := "e" }]).emitted
    ∧ ({ primary_span := some 1, message := "e" } : Diagnostic) ∈
        ((ParseSess.newDefault (fun p => p == "ig.rs")
            (fun s => if s == 0 then FileName.Real "ig.rs" else FileName.Real "main.rs")).emitAll
          [{ primary_span := some 0, message := "i" },
            { primary_span := some 1, message := "e" }]).emitted := by
  constructor
  · exact (C2_default_policy_ignore_filtering _ _ _).1 _ (by simp) rfl
  · exact (C2_default_policy_ignore_filtering _ _ _).2 _ (by simp) 1 "main.rs" rfl rfl rfl

/-- C8: a Diagnostic Session constructed with the Silence emission policy
forwards no diagnostic whatsoever: `SilentEmitter::emit_diagnostic` leaves the
output sink untouched for every diagnostic, so a whole sequence of received
diagnostics leaves the sink exactly as it was at construction. -/
theorem C8_silence_policy_swallows_all :
    (∀ (sink : List Diagnostic) (db : Diagnostic),
        SilentEmitter.emit_diagnostic sink db = sink)
    ∧ ∀ (ds : List Diagnostic) (sink : List Diagnostic),
        ds.foldl SilentEmitter.emit_diagnostic sink = sink := by
  refine ⟨fun _ _ => rfl, fun ds => ?_⟩
  induction ds with
  | nil => intro sink; rfl
  | cons d ds ih => intro sink; exact ih sink

/-- C10: under the Default emission policy, a diagnostic with no primary span,
or whose primary span does not resolve to a real on-disk file name, is always
treated as non-ignorable: it is forwarded to the underlying sink, sets the
has-non-ignorable-errors state, and forces `can_reset_errors` to false for the
rest of the session — even when every real file matches the ignore set. -/
theorem C10_nonreal_primary_span_nonignorable (ign : String → Bool) (sm : Span → FileName)
    (pre post : List Diagnostic) (d : Diagnostic)
    (h : d.primary_span = none ∨ ∃ s, d.primary_span = some s ∧ sm s = FileName.Other) :
    ((ParseSess.newDefault ign sm).emitAll
        (pre ++ d :: post)).has_non_ignorable_parser_errors = true
    ∧ ParseSess.can_reset_errors
        ((ParseSess.newDefault ign sm).emitAll (pre ++ d :: post)) = false
    ∧ d ∈ ((ParseSess.newDefault ign sm).emitAll (pre ++ d :: post)).emitted := by
  have hig : isIgnorableDiagnostic ign sm d = false := by
    rcases h with h0 | ⟨s, hs, ho⟩
    · simp [isIgnorableDiagnostic, h0]
    · simp [isIgnorableDiagnostic, hs, ho]
  have hany : ((pre ++ d :: post).any fun x => !isIgnorableDiagnostic ign sm x) = true :=
    List.any_eq_true.mpr ⟨d, by simp, by simp [hig]⟩
  refine ⟨?_, ?_, ?_⟩
  · rw [emitAll_has_non_ignorable]
    simp only [ParseSess.newDefault] at hany ⊢
    simp [hany]
  · show ((ParseSess.newDefault ign sm).emitAll (pre ++ d :: post)).can_reset = false
    rw [emitAll_can_reset]
    simp only [ParseSess.newDefault] at hany ⊢
    simp [hany]
  · rw [emitAll_emitted]
    simp only [ParseSess.newDefault]
    simp [List.mem_filter, hig]

/-- C10 witness: with an ignore set matching every real file, a span-less
diagnostic still latches the non-ignorable state, forces the flag false and
reaches the sink. -/
theorem C10_nonreal_primary_span_nonignorable_witness :
    ((ParseSess.newDefault (fun _ => true) (fun _ => FileName.Real "a.rs")).emitAll
        ([{ primary_span := some 0, message := "x" }] ++
          { primary_span := none, message := "m" } :: [])).has_non_ignorable_parser_errors = true
    ∧ ParseSess.can_reset_errors
        ((ParseSess.newDefault (fun _ => true) (fun _ => FileName.Real "a.rs")).emitAll
          ([{ primary_span := some 0, message := "x" }] ++
            { primary_span := none, message := "m" } :: [])) = false
    ∧ ({ primary_span := none, message := "m" } : Diagnostic) ∈
        ((ParseSess.newDefault (fun _ => true) (fun _ => FileName.Real "a.rs")).emitAll
          ([{ primary_span := some 0, message := "x" }] ++
            { primary_span := none, message := "m" } :: [])).emitted :=
  C10_nonreal_primary_span_nonignorable (fun _ => true) (fun _ => FileName.Real "a.rs")
    [{ primary_span := some 0, message := "x" }] []
    { primary_span := none, message := "m" } (Or.inl rfl)

/-- C6: the Density-to-tactic mapping of `to_list_tactic` is the fixed
function sending Tall to HorizontalVertical, Vertical to Vertical and
CompressedIfEmpty to HorizontalVertical (the collapse of an empty list to
Horizontal happens in the list layout algorithm that consumes the tactic, not
in this mapping). -/
theorem C6_density_to_list_tactic :
    Density.Tall.to_list_tactic = ListTactic.HorizontalVertical
    ∧ Density.Vertical.to_list_tactic = ListTactic.Vertical
    ∧ Density.CompressedIfEmpty.to_list_tactic = ListTactic.HorizontalVertical :=
  ⟨rfl, rfl, rfl⟩

/-- C7: Scenario A — the import item `use ::foo::{Bar1};` normalizes to
`use foo::Bar1;`: the leading `::` is stripped and the single-item brace
group is collapsed to a plain path. -/
theorem C7_scenario_a_import_normalization :
    (parseUseItem "use ::foo::\x7bBar1\x7d;").map
        (fun t => renderUseTree (normalizeUseTree t)) =
      some "use foo::Bar1;" := by
  rfl

/-- C4 counterexample: on the malformed document `max_width` (a line with no
key/value separator), `from_toml` panics; it does not fail with a
`ConfigParseError` result as the claim states. -/
theorem C4_from_toml_counterexample :
    Config.from_toml "max_width" = FromTomlOutcome.panicked
    ∧ Config.from_toml "max_width" ≠ FromTomlOutcome.configParseError := by
  have h : Config.from_toml "max_width" = FromTomlOutcome.panicked := rfl
  refine ⟨h, ?_⟩
  rw [h]
  decide

/-- C4 (amended): `from_toml` parses a structured key/value document into a
partial override table; when the document is malformed or cannot be decoded it
panics — it never returns a `ConfigParseError` result — and on success it
returns the default configuration filled from the decoded partial table, so a
bad configuration aborts the run before any file is processed. -/
theorem C4_from_toml_panics (text : String) :
    Config.from_toml text ≠ FromTomlOutcome.configParseError
    ∧ (parseTomlDoc text = none → Config.from_toml text = FromTomlOutcome.panicked)
    ∧ (∀ kvs, parseTomlDoc text = some kvs → decodeParsedConfig kvs = none →
        Config.from_toml text = FromTomlOutcome.panicked)
    ∧ ∀ kvs pc, parseTomlDoc text = some kvs → decodeParsedConfig kvs = some pc →
        Config.from_toml text =
          FromTomlOutcome.ok (Config.default.fill_from_parsed_config pc) := by
  refine ⟨?_, ?_, ?_, ?_⟩
  · cases hp : parseTomlDoc text with
    | none => simp [Config.from_toml, hp]
    | some kvs0 =>
      cases hd : decodeParsedConfig kvs0 with
      | none => simp [Config.from_toml, hp, hd]
      | some pc0 => simp [Config.from_toml, hp, hd]
  · intro hp; simp [Config.from_toml, hp]
  · intro kvs hp hd; simp [Config.from_toml, hp, hd]
  · intro kvs pc hp hd; simp [Config.from_toml, hp, hd]

/-- C4 witness: the amended theorem applied to the concrete malformed
document `???`. -/
theorem C4_from_toml_panics_witness :
    Config.from_toml "???" = FromTomlOutcome.panicked :=
  (C4_from_toml_panics "???").2.1 rfl

set_option maxRecDepth 10000 in
/-- C9: `print_docs` emits, for every option marked as documented, its name,
its expected value kind (doc hint), its default value and its human
description lines, in the options' declaration order, after a single heading.
The embedded `print_docs`, like the Rust associated function, takes no
configuration value at all, so it can mutate no configuration state. -/
theorem C9_print_docs_documented_options :
    Config.print_docs = printDocsSpec := by
  rfl

end Rustfmt
